import Mathlib

/-!
Verification of the haproxy log-line extraction tool.

The development is a shallow embedding of three source files:
the cursor splitter of src/slicer.rs, the log entry parser of
src/entry.rs, and the field selector of src/bin/haproxy-cut.rs.
Byte buffers are modelled as lists of natural numbers, one number
per byte; field names, which the tool receives as strings, are
modelled as lists of characters.  Every slice returned by the
splitter is modelled as the list of bytes it contains.
-/

-- ## Cursor splitter, from src/slicer.rs

/-- Error type of the splitter: an expected delimiter byte was never
found, or the buffer did not start with an expected literal. -/
inductive SliceError where
  | ExpectedToken (token : Nat)
  | UnexpectedTokens
deriving DecidableEq

/-- The method slice_to of the Slicer.  The mutable slicer is modelled
by returning the new buffer next to the result: a scan for the first
occurrence of the delimiter returns the bytes strictly before it and
the buffer just past it; if the delimiter never occurs the call fails
and the buffer is returned unchanged. -/
def sliceTo (delim : Nat) : List Nat → Except SliceError (List Nat) × List Nat
  | [] => (.error (.ExpectedToken delim), [])
  | b :: rest =>
    if b = delim then (.ok [], rest)
    else
      match sliceTo delim rest with
      | (.ok s, r) => (.ok (b :: s), r)
      | (.error e, _) => (.error e, b :: rest)

/-- The method slice_to_or_remainder of the Slicer: like sliceTo, but
when the delimiter is missing it consumes and returns the whole
remaining buffer. -/
def sliceToOrRemainder (delim : Nat) (buf : List Nat) : List Nat × List Nat :=
  match sliceTo delim buf with
  | (.ok s, r) => (s, r)
  | (.error _, _) => (buf, [])

/-- The starts_with test used by the method discard of the Slicer. -/
def startsWithL {α : Type} [DecidableEq α] : List α → List α → Bool
  | [], _ => true
  | _ :: _, [] => false
  | p :: ps, b :: bs => if p = b then startsWithL ps bs else false

/-- The method discard of the Slicer: succeed and advance past the
literal iff the buffer starts with it, otherwise fail and leave the
buffer unchanged. -/
def Slicer.discard (s : List Nat) (buf : List Nat) : Except SliceError Unit × List Nat :=
  if startsWithL s buf then (.ok (), buf.drop s.length) else (.error .UnexpectedTokens, buf)

-- ## Log entry record, from src/entry.rs

/-- The flat record of byte-slice fields produced from one log line.
The two-element captures array of the source is modelled by the two
fields captures0 and captures1. -/
structure LogEntry where
  process_name : List Nat
  pid : List Nat
  client_ip : List Nat
  client_port : List Nat
  accept_date : List Nat
  frontend_name : List Nat
  backend_name : List Nat
  server_name : List Nat
  request_time : List Nat
  queue_time : List Nat
  connect_time : List Nat
  response_time : List Nat
  total_time : List Nat
  status_code : List Nat
  bytes_read : List Nat
  captured_request_cookie : List Nat
  captured_response_cookie : List Nat
  termination_state : List Nat
  active_connections : List Nat
  frontend_connections : List Nat
  backend_connections : List Nat
  server_connections : List Nat
  retried_connections : List Nat
  server_queue : List Nat
  backend_queue : List Nat
  captures0 : List Nat
  captures1 : List Nat
  http_request : List Nat
deriving DecidableEq

/-- Sequencing helper for the splitter: run one splitter step and feed
its result and the advanced buffer to the continuation, or abort with
the originating splitter error. -/
def runSlice {α β : Type} (step : List Nat → Except SliceError α × List Nat)
    (k : α → List Nat → Except SliceError β) (buf : List Nat) : Except SliceError β :=
  match step buf with
  | (.ok a, b) => k a b
  | (.error e, _) => .error e

/-- The capture block loop of LogEntry::from_bytes, unrolled: up to two
repetitions of a brace-delimited block each followed by one space; the
loop stops without error as soon as an opening brace is not found. -/
def parseCaps (buf : List Nat) : Except SliceError ((List Nat × List Nat) × List Nat) :=
  match Slicer.discard [123] buf with
  | (.error _, _) => .ok (([], []), buf)
  | (.ok _, b1) =>
    match sliceTo 125 b1 with
    | (.error e, _) => .error e
    | (.ok c0, b2) =>
      match Slicer.discard [32] b2 with
      | (.error e, _) => .error e
      | (.ok _, b3) =>
        match Slicer.discard [123] b3 with
        | (.error _, _) => .ok ((c0, []), b3)
        | (.ok _, b4) =>
          match sliceTo 125 b4 with
          | (.error e, _) => .error e
          | (.ok c1, b5) =>
            match Slicer.discard [32] b5 with
            | (.error e, _) => .error e
            | (.ok _, b6) => .ok ((c0, c1), b6)

/-- The parser LogEntry::from_bytes: a single pass over the fixed
grammar, with byte values written in decimal, so 91 and 93 are the
square brackets, 58 the colon, 32 the space, 47 the slash, 123 and
125 the braces, and 34 the double quote. -/
def LogEntry.from_bytes (buf : List Nat) : Except SliceError LogEntry :=
  runSlice (sliceTo 91) (fun process_name =>
  runSlice (sliceTo 93) (fun pid =>
  runSlice (Slicer.discard [58, 32]) (fun _ =>
  runSlice (sliceTo 58) (fun client_ip =>
  runSlice (sliceTo 32) (fun client_port =>
  runSlice (Slicer.discard [91]) (fun _ =>
  runSlice (sliceTo 93) (fun accept_date =>
  runSlice (Slicer.discard [32]) (fun _ =>
  runSlice (sliceTo 32) (fun frontend_name =>
  runSlice (sliceTo 47) (fun backend_name =>
  runSlice (sliceTo 32) (fun server_name =>
  runSlice (sliceTo 47) (fun time_request =>
  runSlice (sliceTo 47) (fun time_queue =>
  runSlice (sliceTo 47) (fun time_connect =>
  runSlice (sliceTo 47) (fun time_response =>
  runSlice (sliceTo 32) (fun time_total =>
  runSlice (sliceTo 32) (fun status_code =>
  runSlice (sliceTo 32) (fun bytes_read =>
  runSlice (sliceTo 32) (fun captured_request_cookie =>
  runSlice (sliceTo 32) (fun captured_response_cookie =>
  runSlice (sliceTo 32) (fun termination_state =>
  runSlice (sliceTo 47) (fun connections_active =>
  runSlice (sliceTo 47) (fun connections_frontend =>
  runSlice (sliceTo 47) (fun connections_backend =>
  runSlice (sliceTo 47) (fun connections_server =>
  runSlice (sliceTo 32) (fun connections_retried =>
  runSlice (sliceTo 47) (fun server_queue =>
  runSlice (sliceTo 32) (fun backend_queue =>
  fun b =>
    match parseCaps b with
    | .error e => .error e
    | .ok ((c0, c1), rest) =>
      match Slicer.discard [34] rest with
      | (.error e, _) => .error e
      | (.ok _, rest2) =>
        .ok { process_name := process_name
              pid := pid
              client_ip := client_ip
              client_port := client_port
              accept_date := accept_date
              frontend_name := frontend_name
              backend_name := backend_name
              server_name := server_name
              request_time := time_request
              queue_time := time_queue
              connect_time := time_connect
              response_time := time_response
              total_time := time_total
              status_code := status_code
              bytes_read := bytes_read
              captured_request_cookie := captured_request_cookie
              captured_response_cookie := captured_response_cookie
              termination_state := termination_state
              active_connections := connections_active
              frontend_connections := connections_frontend
              backend_connections := connections_backend
              server_connections := connections_server
              retried_connections := connections_retried
              server_queue := server_queue
              backend_queue := backend_queue
              captures0 := c0
              captures1 := c1
              http_request := (sliceToOrRemainder 34 rest2).1 })))))))))))))))))))))))))))) buf

-- ## Derived accessors of the log entry, from src/entry.rs

/-- Splitting of a byte slice on a delimiter byte, with the semantics
of slice::split of the source language: n occurrences of the delimiter
produce n plus one pieces, and the empty slice produces one empty
piece. -/
def splitOnByte (delim : Nat) : List Nat → List (List Nat)
  | [] => [[]]
  | b :: rest =>
    if b = delim then [] :: splitOnByte delim rest
    else
      match splitOnByte delim rest with
      | [] => [[b]]
      | s :: ss => (b :: s) :: ss

/-- The accessor http_method: the 0th space-separated token of the
request line, if present. -/
def LogEntry.http_method (e : LogEntry) : Option (List Nat) :=
  (splitOnByte 32 e.http_request)[0]?

/-- The accessor http_uri: the 1st space-separated token of the
request line, if present. -/
def LogEntry.http_uri (e : LogEntry) : Option (List Nat) :=
  (splitOnByte 32 e.http_request)[1]?

/-- The accessor http_version: the 2nd space-separated token of the
request line, if present. -/
def LogEntry.http_version (e : LogEntry) : Option (List Nat) :=
  (splitOnByte 32 e.http_request)[2]?

/-- Indexing of the two-element captures array of the source.  An
index past the end of the array aborts the program there, which is
modelled by the value none. -/
def LogEntry.capturesIdx (e : LogEntry) : Nat → Option (List Nat)
  | 0 => some e.captures0
  | 1 => some e.captures1
  | _ => none

/-- The accessor captured_header: the jth pipe-separated token of
capture slot i.  The outer option models the array indexing of slot i,
none standing for the abort on an out-of-range slot index; the inner
option is the optional result of the source accessor. -/
def LogEntry.captured_header (e : LogEntry) (i j : Nat) : Option (Option (List Nat)) :=
  (e.capturesIdx i).map (fun c => (splitOnByte 124 c)[j]?)

-- ## Sample line of the parser test suite

/-- The byte content of the sample log line of the test suite of
src/entry.rs. -/
def sampleLine : List Nat :=
  [104, 97, 112, 114, 111, 120, 121, 91, 49, 52, 51, 56, 57, 93, 58, 32, 49, 48, 46, 48,
   46, 49, 46, 50, 58, 51, 51, 51, 49, 55, 32, 91, 48, 54, 47, 70, 101, 98, 47, 50, 48,
   48, 57, 58, 49, 50, 58, 49, 52, 58, 49, 52, 46, 54, 53, 53, 93, 32, 104, 116, 116,
   112, 45, 105, 110, 32, 115, 116, 97, 116, 105, 99, 47, 115, 114, 118, 49, 32, 49, 48,
   47, 48, 47, 51, 48, 47, 54, 57, 47, 49, 48, 57, 32, 50, 48, 48, 32, 50, 55, 53, 48,
   32, 99, 111, 111, 107, 105, 101, 95, 105, 110, 32, 99, 111, 111, 107, 105, 101, 95,
   111, 117, 116, 32, 45, 45, 45, 45, 32, 49, 47, 49, 47, 49, 47, 49, 47, 48, 32, 48,
   47, 48, 32, 123, 49, 119, 116, 46, 101, 117, 125, 32, 123, 125, 32, 34, 71, 69, 84,
   32, 47, 105, 110, 100, 101, 120, 46, 104, 116, 109, 108, 32, 72, 84, 84, 80, 47, 49,
   46, 49, 34]

/-- The entry that parsing the sample line must produce, with each
field given by its byte content. -/
def sampleEntry : LogEntry where
  process_name := [104, 97, 112, 114, 111, 120, 121]
  pid := [49, 52, 51, 56, 57]
  client_ip := [49, 48, 46, 48, 46, 49, 46, 50]
  client_port := [51, 51, 51, 49, 55]
  accept_date := [48, 54, 47, 70, 101, 98, 47, 50, 48, 48, 57, 58, 49, 50, 58, 49, 52, 58, 49, 52, 46, 54, 53, 53]
  frontend_name := [104, 116, 116, 112, 45, 105, 110]
  backend_name := [115, 116, 97, 116, 105, 99]
  server_name := [115, 114, 118, 49]
  request_time := [49, 48]
  queue_time := [48]
  connect_time := [51, 48]
  response_time := [54, 57]
  total_time := [49, 48, 57]
  status_code := [50, 48, 48]
  bytes_read := [50, 55, 53, 48]
  captured_request_cookie := [99, 111, 111, 107, 105, 101, 95, 105, 110]
  captured_response_cookie := [99, 111, 111, 107, 105, 101, 95, 111, 117, 116]
  termination_state := [45, 45, 45, 45]
  active_connections := [49]
  frontend_connections := [49]
  backend_connections := [49]
  server_connections := [49]
  retried_connections := [48]
  server_queue := [48]
  backend_queue := [48]
  captures0 := [49, 119, 116, 46, 101, 117]
  captures1 := []
  http_request := [71, 69, 84, 32, 47, 105, 110, 100, 101, 120, 46, 104, 116, 109, 108, 32, 72, 84, 84, 80, 47, 49, 46, 49]


/-- An entry all of whose fields are empty, used to exercise the
derived accessors on absent content. -/
def emptyEntry : LogEntry where
  process_name := []
  pid := []
  client_ip := []
  client_port := []
  accept_date := []
  frontend_name := []
  backend_name := []
  server_name := []
  request_time := []
  queue_time := []
  connect_time := []
  response_time := []
  total_time := []
  status_code := []
  bytes_read := []
  captured_request_cookie := []
  captured_response_cookie := []
  termination_state := []
  active_connections := []
  frontend_connections := []
  backend_connections := []
  server_connections := []
  retried_connections := []
  server_queue := []
  backend_queue := []
  captures0 := []
  captures1 := []
  http_request := []

-- ## Grammar builder: a line assembled from its raw fields

/-- The capture block segment of a line: each block is wrapped in
braces and followed by one space, in front of the given rest of the
line. -/
def capsSegment : List (List Nat) → List Nat → List Nat
  | [], rest => rest
  | c :: cs, rest => 123 :: (c ++ 125 :: 32 :: capsSegment cs rest)

/-- A line of the fixed grammar assembled from its raw fields, the
list of capture blocks, and the part of the line that follows the
opening double quote of the request line. -/
def mkLine (pn pid ip port date fe be srv tq tw tc tr tt st br rqc rsc tm ca cf cb cs cr sq bq : List Nat)
    (caps : List (List Nat)) (tail : List Nat) : List Nat :=
  pn ++ 91 :: (pid ++ 93 :: 58 :: 32 :: (ip ++ 58 :: (port ++ 32 :: 91 :: (date ++ 93 :: 32 ::
  (fe ++ 32 :: (be ++ 47 :: (srv ++ 32 :: (tq ++ 47 :: (tw ++ 47 :: (tc ++ 47 :: (tr ++ 47 ::
  (tt ++ 32 :: (st ++ 32 :: (br ++ 32 :: (rqc ++ 32 :: (rsc ++ 32 :: (tm ++ 32 :: (ca ++ 47 ::
  (cf ++ 47 :: (cb ++ 47 :: (cs ++ 47 :: (cr ++ 32 :: (sq ++ 47 :: (bq ++ 32 ::
  capsSegment caps (34 :: tail)))))))))))))))))))))))))

-- ## Field selector, from src/bin/haproxy-cut.rs

/-- The closed set of selectable fields: one tag per named attribute,
the three derived HTTP sub parts, and the indexed captured header
variant carrying its two decoded indices. -/
inductive HCut.Field where
  | ProcessName | ProcessId | ClientIp | ClientPort | AcceptDate
  | FrontendName | BackendName | ServerName
  | RequestTime | QueueTime | ConnectTime | ResponseTime | TotalTime
  | StatusCode | BytesRead | CapturedRequestCookie | CapturedResponseCookie
  | TerminationState
  | ActiveConnections | FrontendConnections | BackendConnections
  | ServerConnections | RetriedConnections
  | ServerQueue | BackendQueue | HttpRequest
  | HttpMethod | HttpUri | HttpVersion
  | CapturedHeader (i j : Nat)
deriving DecidableEq

/-- The characters of the literal prefix of the indexed field
syntax. -/
def chPat : List Char := "captured_header[".toList

/-- Fuel indexed iteration of trim_start_matches: remove the leading
pattern as long as it is present; the fuel, set to the length of the
string, bounds the number of rounds since the pattern is nonempty. -/
def trimGo : Nat → List Char → List Char
  | 0, s => s
  | n + 1, s => if startsWithL chPat s then trimGo n (s.drop chPat.length) else s

/-- The call trim_start_matches of the source: repeatedly strip the
leading pattern from the string. -/
def trimStartMatchesCH (s : List Char) : List Char := trimGo s.length s

/-- The call trim_end_matches of the source: strip every trailing
close bracket character. -/
def trimEndMatchesRB (s : List Char) : List Char :=
  (s.reverse.dropWhile (fun c => c == ']')).reverse

/-- The split of the index text on the two character separator, with
the leftmost, non overlapping semantics of the split of the source
language. -/
def splitOnSepRB : List Char → List (List Char)
  | [] => [[]]
  | [c] => [[c]]
  | c1 :: c2 :: rest =>
    if c1 = ']' ∧ c2 = '[' then [] :: splitOnSepRB rest
    else
      match splitOnSepRB (c2 :: rest) with
      | [] => [[c1]]
      | s :: ss => (c1 :: s) :: ss

/-- Decimal digit accumulation of the integer parser. -/
def natOfDigits (ds : List Char) : Nat :=
  ds.foldl (fun acc c => acc * 10 + (c.toNat - 48)) 0

/-- The digit part of the unsigned integer parse: one or more decimal
digits, failing on any other character and on overflow past the 64 bit
unsigned maximum. -/
def parseUsizeDigits (ds : List Char) : Option Nat :=
  if ds.isEmpty then none
  else if ds.all (fun c => c.isDigit) then
    if natOfDigits ds < 2 ^ 64 then some (natOfDigits ds) else none
  else none

/-- The unsigned integer parse of the source: strip one optional
leading plus sign, then parse the digits. -/
def parseUsize (s : List Char) : Option Nat :=
  parseUsizeDigits (if s.head? = some '+' then s.tail else s)

/-- The function Field::decode: exact match against the fixed
vocabulary, then the indexed captured header syntax, then failure as
an unknown field. -/
def HCut.Field.decode (field : List Char) : Except String HCut.Field :=
  if field = "process_name".toList then .ok .ProcessName
  else if field = "pid".toList then .ok .ProcessId
  else if field = "client_ip".toList then .ok .ClientIp
  else if field = "client_port".toList then .ok .ClientPort
  else if field = "accept_date".toList then .ok .AcceptDate
  else if field = "frontend_name".toList then .ok .FrontendName
  else if field = "backend_name".toList then .ok .BackendName
  else if field = "server_name".toList then .ok .ServerName
  else if field = "Tq".toList then .ok .RequestTime
  else if field = "Tw".toList then .ok .QueueTime
  else if field = "Tc".toList then .ok .ConnectTime
  else if field = "Tr".toList then .ok .ResponseTime
  else if field = "Tt".toList then .ok .TotalTime
  else if field = "status_code".toList then .ok .StatusCode
  else if field = "bytes_read".toList then .ok .BytesRead
  else if field = "captured_request_cookie".toList then .ok .CapturedRequestCookie
  else if field = "captured_response_cookie".toList then .ok .CapturedResponseCookie
  else if field = "termination_state".toList then .ok .TerminationState
  else if field = "actconn".toList then .ok .ActiveConnections
  else if field = "feconn".toList then .ok .FrontendConnections
  else if field = "beconn".toList then .ok .BackendConnections
  else if field = "srv_conn".toList then .ok .ServerConnections
  else if field = "retries".toList then .ok .RetriedConnections
  else if field = "srv_queue".toList then .ok .ServerQueue
  else if field = "backend_queue".toList then .ok .BackendQueue
  else if field = "http_request".toList then .ok .HttpRequest
  else if field = "http_method".toList then .ok .HttpMethod
  else if field = "http_uri".toList then .ok .HttpUri
  else if field = "http_version".toList then .ok .HttpVersion
  else if startsWithL chPat field then
    if field.getLast? ≠ some ']' then
      .error "captured_header: expected final `]`"
    else
      match (splitOnSepRB (trimEndMatchesRB (trimStartMatchesCH field))).mapM parseUsize with
      | none => .error "captured_header: could not parse index"
      | some indices =>
        match indices with
        | [i, j] =>
          if i > 1 then .error "captured_header: the first index must be 0 or 1"
          else .ok (.CapturedHeader i j)
        | _ => .error "captured_header: not enough indices"
  else .error ("unknown field " ++ String.mk field)

/-- The function Field::extract_content_from.  The option result
models the one possible abort, indexing capture slot i of the entry
for i past the array bound; every absent derived accessor is mapped to
the empty slice by unwrap_or. -/
def HCut.Field.extract_content_from (f : HCut.Field) (e : LogEntry) : Option (List Nat) :=
  match f with
  | .ProcessName => some e.process_name
  | .ProcessId => some e.pid
  | .ClientIp => some e.client_ip
  | .ClientPort => some e.client_port
  | .AcceptDate => some e.accept_date
  | .FrontendName => some e.frontend_name
  | .BackendName => some e.backend_name
  | .ServerName => some e.server_name
  | .RequestTime => some e.request_time
  | .QueueTime => some e.queue_time
  | .ConnectTime => some e.connect_time
  | .ResponseTime => some e.response_time
  | .TotalTime => some e.total_time
  | .StatusCode => some e.status_code
  | .BytesRead => some e.bytes_read
  | .CapturedRequestCookie => some e.captured_request_cookie
  | .CapturedResponseCookie => some e.captured_response_cookie
  | .TerminationState => some e.termination_state
  | .ActiveConnections => some e.active_connections
  | .FrontendConnections => some e.frontend_connections
  | .BackendConnections => some e.backend_connections
  | .ServerConnections => some e.server_connections
  | .RetriedConnections => some e.retried_connections
  | .ServerQueue => some e.server_queue
  | .BackendQueue => some e.backend_queue
  | .HttpRequest => some e.http_request
  | .HttpMethod => some (e.http_method.getD [])
  | .HttpUri => some (e.http_uri.getD [])
  | .HttpVersion => some (e.http_version.getD [])
  | .CapturedHeader i j => (e.captured_header i j).map (fun o => o.getD [])

/-- Shape of the indexed field name as the specification words it: the
literal prefix, a first decimal index, the bracket pair separator, a
second decimal index, a final close bracket, and a first index of at
most one.  This definition follows the specification text and is meant
for comparison with the decode function of the source. -/
def capturedHeaderShape (s : List Char) : Bool :=
  startsWithL chPat s &&
  (let r1 := s.drop chPat.length
   let d1 := r1.takeWhile (fun c => c.isDigit)
   let r2 := r1.drop d1.length
   !d1.isEmpty &&
   match r2 with
   | ']' :: '[' :: r3 =>
     let d2 := r3.takeWhile (fun c => c.isDigit)
     let r4 := r3.drop d2.length
     !d2.isEmpty && r4 == [']'] && decide (natOfDigits d1 ≤ 1)
   | _ => false)

-- ## Splitter step lemmas

theorem sliceTo_append {d : Nat} {a : List Nat} (r : List Nat) (h : d ∉ a) :
    sliceTo d (a ++ d :: r) = (.ok a, r) := by
  induction a with
  | nil => simp [sliceTo]
  | cons x xs ih =>
    simp only [List.mem_cons, not_or] at h
    have hx : ¬ (x = d) := fun hh => h.1 hh.symm
    simp [sliceTo, hx, ih h.2]

theorem sliceTo_not_mem {d : Nat} {buf : List Nat} (h : d ∉ buf) :
    sliceTo d buf = (.error (.ExpectedToken d), buf) := by
  induction buf with
  | nil => simp [sliceTo]
  | cons x xs ih =>
    simp only [List.mem_cons, not_or] at h
    have hx : ¬ (x = d) := fun hh => h.1 hh.symm
    simp [sliceTo, hx, ih h.2]

theorem startsWithL_append {α : Type} [DecidableEq α] (p r : List α) :
    startsWithL p (p ++ r) = true := by
  induction p with
  | nil => simp [startsWithL]
  | cons x xs ih => simp [startsWithL, ih]

theorem discard_append (p r : List Nat) : Slicer.discard p (p ++ r) = (.ok (), r) := by
  simp [Slicer.discard, startsWithL_append, List.drop_left]

theorem runSlice_sliceTo {β : Type} {d : Nat} {a : List Nat} {r : List Nat}
    {k : List Nat → List Nat → Except SliceError β} (h : d ∉ a) :
    runSlice (sliceTo d) k (a ++ d :: r) = k a r := by
  simp [runSlice, sliceTo_append r h]

theorem runSlice_discard₁ {β : Type} {x : Nat} {r : List Nat}
    {k : Unit → List Nat → Except SliceError β} :
    runSlice (Slicer.discard [x]) k (x :: r) = k () r := by
  have : Slicer.discard [x] (x :: r) = (.ok (), r) := discard_append [x] r
  simp [runSlice, this]

theorem runSlice_discard₂ {β : Type} {x y : Nat} {r : List Nat}
    {k : Unit → List Nat → Except SliceError β} :
    runSlice (Slicer.discard [x, y]) k (x :: y :: r) = k () r := by
  have : Slicer.discard [x, y] (x :: y :: r) = (.ok (), r) := discard_append [x, y] r
  simp [runSlice, this]

theorem discard_cons {x : Nat} {r : List Nat} : Slicer.discard [x] (x :: r) = (.ok (), r) :=
  discard_append [x] r

theorem discard_not_head {x b : Nat} {r : List Nat} (h : ¬ (x = b)) :
    Slicer.discard [x] (b :: r) = (.error .UnexpectedTokens, b :: r) := by
  simp [Slicer.discard, startsWithL, h]

-- ## Capture loop lemmas

theorem parseCaps_zero {t : List Nat} : parseCaps (34 :: t) = .ok (([], []), 34 :: t) := by
  have h : Slicer.discard [123] (34 :: t) = (.error .UnexpectedTokens, 34 :: t) :=
    discard_not_head (by decide)
  simp [parseCaps, h]

theorem parseCaps_one {c0 t : List Nat} (h0 : 125 ∉ c0) :
    parseCaps (123 :: (c0 ++ 125 :: 32 :: 34 :: t)) = .ok ((c0, []), 34 :: t) := by
  have hb : Slicer.discard [123] (123 :: (c0 ++ 125 :: 32 :: 34 :: t))
      = (.ok (), c0 ++ 125 :: 32 :: 34 :: t) := discard_cons
  have hq : Slicer.discard [123] (34 :: t) = (.error .UnexpectedTokens, 34 :: t) :=
    discard_not_head (by decide)
  simp [parseCaps, hb, sliceTo_append _ h0, discard_cons, hq]

theorem parseCaps_two {c0 c1 rest : List Nat} (h0 : 125 ∉ c0) (h1 : 125 ∉ c1) :
    parseCaps (123 :: (c0 ++ 125 :: 32 :: 123 :: (c1 ++ 125 :: 32 :: rest)))
      = .ok ((c0, c1), rest) := by
  simp [parseCaps, discard_cons, sliceTo_append _ h0, sliceTo_append _ h1]

-- ## Forward theorem: parsing a line assembled by mkLine

theorem from_bytes_mkLine
    (pn pid ip port date fe be srv tq tw tc tr tt st br rqc rsc tm ca cf cb cs cr sq bq : List Nat)
    (caps : List (List Nat)) (tail : List Nat)
    (hpn : 91 ∉ pn) (hpid : 93 ∉ pid) (hip : 58 ∉ ip) (hport : 32 ∉ port)
    (hdate : 93 ∉ date) (hfe : 32 ∉ fe) (hbe : 47 ∉ be) (hsrv : 32 ∉ srv)
    (htq : 47 ∉ tq) (htw : 47 ∉ tw) (htc : 47 ∉ tc) (htr : 47 ∉ tr) (htt : 32 ∉ tt)
    (hst : 32 ∉ st) (hbr : 32 ∉ br) (hrqc : 32 ∉ rqc) (hrsc : 32 ∉ rsc) (htm : 32 ∉ tm)
    (hca : 47 ∉ ca) (hcf : 47 ∉ cf) (hcb : 47 ∉ cb) (hcs : 47 ∉ cs) (hcr : 32 ∉ cr)
    (hsq : 47 ∉ sq) (hbq : 32 ∉ bq)
    (hlen : caps.length ≤ 2) (hcap : ∀ c ∈ caps, 125 ∉ c) :
    LogEntry.from_bytes
        (mkLine pn pid ip port date fe be srv tq tw tc tr tt st br rqc rsc tm ca cf cb cs cr sq bq caps tail)
      = .ok { process_name := pn, pid := pid, client_ip := ip, client_port := port,
              accept_date := date, frontend_name := fe, backend_name := be, server_name := srv,
              request_time := tq, queue_time := tw, connect_time := tc, response_time := tr,
              total_time := tt, status_code := st, bytes_read := br,
              captured_request_cookie := rqc, captured_response_cookie := rsc,
              termination_state := tm, active_connections := ca, frontend_connections := cf,
              backend_connections := cb, server_connections := cs, retried_connections := cr,
              server_queue := sq, backend_queue := bq,
              captures0 := caps.getD 0 [], captures1 := caps.getD 1 [],
              http_request := (sliceToOrRemainder 34 tail).1 } := by
  rcases caps with _ | ⟨c0, _ | ⟨c1, _ | ⟨c2, caps'⟩⟩⟩
  · simp only [mkLine, capsSegment, LogEntry.from_bytes,
      runSlice_sliceTo hpn, runSlice_sliceTo hpid, runSlice_discard₂,
      runSlice_sliceTo hip, runSlice_sliceTo hport, runSlice_discard₁,
      runSlice_sliceTo hdate, runSlice_sliceTo hfe, runSlice_sliceTo hbe,
      runSlice_sliceTo hsrv, runSlice_sliceTo htq, runSlice_sliceTo htw,
      runSlice_sliceTo htc, runSlice_sliceTo htr, runSlice_sliceTo htt,
      runSlice_sliceTo hst, runSlice_sliceTo hbr, runSlice_sliceTo hrqc,
      runSlice_sliceTo hrsc, runSlice_sliceTo htm, runSlice_sliceTo hca,
      runSlice_sliceTo hcf, runSlice_sliceTo hcb, runSlice_sliceTo hcs,
      runSlice_sliceTo hcr, runSlice_sliceTo hsq, runSlice_sliceTo hbq,
      parseCaps_zero, discard_cons]
    rfl
  · have h0 : 125 ∉ c0 := hcap c0 (by simp)
    simp only [mkLine, capsSegment, LogEntry.from_bytes,
      runSlice_sliceTo hpn, runSlice_sliceTo hpid, runSlice_discard₂,
      runSlice_sliceTo hip, runSlice_sliceTo hport, runSlice_discard₁,
      runSlice_sliceTo hdate, runSlice_sliceTo hfe, runSlice_sliceTo hbe,
      runSlice_sliceTo hsrv, runSlice_sliceTo htq, runSlice_sliceTo htw,
      runSlice_sliceTo htc, runSlice_sliceTo htr, runSlice_sliceTo htt,
      runSlice_sliceTo hst, runSlice_sliceTo hbr, runSlice_sliceTo hrqc,
      runSlice_sliceTo hrsc, runSlice_sliceTo htm, runSlice_sliceTo hca,
      runSlice_sliceTo hcf, runSlice_sliceTo hcb, runSlice_sliceTo hcs,
      runSlice_sliceTo hcr, runSlice_sliceTo hsq, runSlice_sliceTo hbq,
      parseCaps_one h0, discard_cons]
    rfl
  · have h0 : 125 ∉ c0 := hcap c0 (by simp)
    have h1 : 125 ∉ c1 := hcap c1 (by simp)
    simp only [mkLine, capsSegment, LogEntry.from_bytes,
      runSlice_sliceTo hpn, runSlice_sliceTo hpid, runSlice_discard₂,
      runSlice_sliceTo hip, runSlice_sliceTo hport, runSlice_discard₁,
      runSlice_sliceTo hdate, runSlice_sliceTo hfe, runSlice_sliceTo hbe,
      runSlice_sliceTo hsrv, runSlice_sliceTo htq, runSlice_sliceTo htw,
      runSlice_sliceTo htc, runSlice_sliceTo htr, runSlice_sliceTo htt,
      runSlice_sliceTo hst, runSlice_sliceTo hbr, runSlice_sliceTo hrqc,
      runSlice_sliceTo hrsc, runSlice_sliceTo htm, runSlice_sliceTo hca,
      runSlice_sliceTo hcf, runSlice_sliceTo hcb, runSlice_sliceTo hcs,
      runSlice_sliceTo hcr, runSlice_sliceTo hsq, runSlice_sliceTo hbq,
      parseCaps_two h0 h1, discard_cons]
    rfl
  · simp at hlen

-- ## Inversion lemmas: decomposing a successfully parsed buffer

theorem startsWithL_decomp {α : Type} [DecidableEq α] {p b : List α}
    (h : startsWithL p b = true) : b = p ++ b.drop p.length := by
  induction p generalizing b with
  | nil => simp
  | cons x xs ih =>
    cases b with
    | nil => simp [startsWithL] at h
    | cons y ys =>
      simp only [startsWithL] at h
      by_cases hx : x = y
      · subst hx
        rw [if_pos rfl] at h
        simpa using ih h
      · rw [if_neg hx] at h
        simp at h

theorem discard_ok_decomp {p buf r : List Nat} (h : Slicer.discard p buf = (.ok (), r)) :
    buf = p ++ r := by
  unfold Slicer.discard at h
  by_cases hs : startsWithL p buf = true
  · rw [if_pos hs] at h
    have h2 := startsWithL_decomp hs
    have h3 : buf.drop p.length = r := by
      have := congrArg Prod.snd h
      simpa using this
    rw [h3] at h2
    exact h2
  · rw [if_neg hs] at h
    simp at h

theorem discard_error_decomp {p buf b2 : List Nat} {e : SliceError}
    (h : Slicer.discard p buf = (.error e, b2)) : b2 = buf ∧ e = .UnexpectedTokens := by
  unfold Slicer.discard at h
  by_cases hs : startsWithL p buf = true
  · rw [if_pos hs] at h
    simp at h
  · rw [if_neg hs] at h
    have h1 := congrArg Prod.fst h
    have h2 := congrArg Prod.snd h
    simp only [Except.error.injEq] at h1
    exact ⟨(congrArg id h2).symm, h1.symm⟩

theorem sliceTo_ok_decomp {d : Nat} {buf s r : List Nat}
    (h : sliceTo d buf = (.ok s, r)) : buf = s ++ d :: r ∧ d ∉ s := by
  induction buf generalizing s r with
  | nil => simp [sliceTo] at h
  | cons x xs ih =>
    by_cases hx : x = d
    · subst hx
      simp only [sliceTo, if_pos rfl, Prod.mk.injEq, Except.ok.injEq] at h
      obtain ⟨hs, hr⟩ := h
      simp
    · simp only [sliceTo, if_neg hx] at h
      rcases hrec : sliceTo d xs with ⟨rr, bb⟩
      rw [hrec] at h
      cases rr with
      | ok s0 =>
        simp only [Prod.mk.injEq, Except.ok.injEq] at h
        obtain ⟨hs, hr⟩ := h
        subst_vars
        obtain ⟨hb, hm⟩ := ih hrec
        constructor
        · rw [hb]
          simp
        · simp only [List.mem_cons, not_or]
          exact ⟨fun hh => hx hh.symm, hm⟩
      | error e0 => simp at h

theorem sliceTo_error_decomp {d : Nat} {buf b2 : List Nat} {e : SliceError}
    (h : sliceTo d buf = (.error e, b2)) : b2 = buf ∧ e = .ExpectedToken d ∧ d ∉ buf := by
  induction buf generalizing b2 with
  | nil =>
    simp only [sliceTo, Prod.mk.injEq, Except.error.injEq] at h
    exact ⟨h.2.symm, h.1.symm, by simp⟩
  | cons x xs ih =>
    by_cases hx : x = d
    · subst hx
      simp [sliceTo] at h
    · simp only [sliceTo, if_neg hx] at h
      rcases hrec : sliceTo d xs with ⟨rr, bb⟩
      rw [hrec] at h
      cases rr with
      | ok s0 => simp at h
      | error e0 =>
        simp only [Prod.mk.injEq, Except.error.injEq] at h
        obtain ⟨he, hb⟩ := h
        subst_vars
        obtain ⟨_, he0, hm⟩ := ih hrec
        refine ⟨rfl, he0, ?_⟩
        simp only [List.mem_cons, not_or]
        exact ⟨fun hh => hx hh.symm, hm⟩

theorem runSlice_ok {α β : Type} {step : List Nat → Except SliceError α × List Nat}
    {k : α → List Nat → Except SliceError β} {buf : List Nat} {v : β}
    (h : runSlice step k buf = .ok v) :
    ∃ a b, step buf = (.ok a, b) ∧ k a b = .ok v := by
  unfold runSlice at h
  rcases hs : step buf with ⟨rr, b⟩
  rw [hs] at h
  cases rr with
  | ok a => exact ⟨a, b, rfl, h⟩
  | error e => simp at h

theorem parseCaps_ok_decomp {buf c0 c1 rest : List Nat}
    (h : parseCaps buf = .ok ((c0, c1), rest)) :
    ∃ caps : List (List Nat), caps.length ≤ 2 ∧ buf = capsSegment caps rest ∧
      c0 = caps.getD 0 [] ∧ c1 = caps.getD 1 [] := by
  unfold parseCaps at h
  rcases h1 : Slicer.discard [123] buf with ⟨r1, b1⟩
  rw [h1] at h
  cases r1 with
  | error e1 =>
    simp only [Except.ok.injEq, Prod.mk.injEq] at h
    obtain ⟨⟨hc0, hc1⟩, hrest⟩ := h
    exact ⟨[], by simp, by simp [capsSegment, hrest], hc0.symm, hc1.symm⟩
  | ok u1 =>
    cases u1
    simp only [] at h
    have hb : buf = [123] ++ b1 := discard_ok_decomp h1
    rcases h2 : sliceTo 125 b1 with ⟨r2, b2⟩
    rw [h2] at h
    cases r2 with
    | error e2 => simp at h
    | ok c0x =>
      simp only [] at h
      have hb1 : b1 = c0x ++ 125 :: b2 := (sliceTo_ok_decomp h2).1
      rcases h3 : Slicer.discard [32] b2 with ⟨r3, b3⟩
      rw [h3] at h
      cases r3 with
      | error e3 => simp at h
      | ok u3 =>
        cases u3
        simp only [] at h
        have hb2 : b2 = [32] ++ b3 := discard_ok_decomp h3
        rcases h4 : Slicer.discard [123] b3 with ⟨r4, b4⟩
        rw [h4] at h
        cases r4 with
        | error e4 =>
          simp only [Except.ok.injEq, Prod.mk.injEq] at h
          obtain ⟨⟨hc0, hc1⟩, hrest⟩ := h
          refine ⟨[c0x], by simp, ?_, by simp [hc0.symm], by simp [hc1.symm]⟩
          rw [hb, hb1, hb2, hrest]
          simp [capsSegment, hc0]
        | ok u4 =>
          cases u4
          simp only [] at h
          have hb3 : b3 = [123] ++ b4 := discard_ok_decomp h4
          rcases h5 : sliceTo 125 b4 with ⟨r5, b5⟩
          rw [h5] at h
          cases r5 with
          | error e5 => simp at h
          | ok c1x =>
            simp only [] at h
            have hb4 : b4 = c1x ++ 125 :: b5 := (sliceTo_ok_decomp h5).1
            rcases h6 : Slicer.discard [32] b5 with ⟨r6, b6⟩
            rw [h6] at h
            cases r6 with
            | error e6 => simp at h
            | ok u6 =>
              cases u6
              have hb5 : b5 = [32] ++ b6 := discard_ok_decomp h6
              simp only [Except.ok.injEq, Prod.mk.injEq] at h
              obtain ⟨⟨hc0, hc1⟩, hrest⟩ := h
              refine ⟨[c0x, c1x], by simp, ?_, by simp [hc0.symm], by simp [hc1.symm]⟩
              rw [hb, hb1, hb2, hb3, hb4, hb5, hrest]
              simp [capsSegment, hc0, hc1]

theorem from_bytes_ok_decomp {buf : List Nat} {e : LogEntry}
    (h : LogEntry.from_bytes buf = .ok e) :
    ∃ caps tail, caps.length ≤ 2 ∧
      buf = mkLine e.process_name e.pid e.client_ip e.client_port e.accept_date
        e.frontend_name e.backend_name e.server_name e.request_time e.queue_time
        e.connect_time e.response_time e.total_time e.status_code e.bytes_read
        e.captured_request_cookie e.captured_response_cookie e.termination_state
        e.active_connections e.frontend_connections e.backend_connections
        e.server_connections e.retried_connections e.server_queue e.backend_queue
        caps tail ∧
      e.captures0 = caps.getD 0 [] ∧ e.captures1 = caps.getD 1 [] ∧
      e.http_request = (sliceToOrRemainder 34 tail).1 := by
  unfold LogEntry.from_bytes at h
  obtain ⟨a1, b1, h1, h⟩ := runSlice_ok h
  obtain ⟨a2, b2, h2, h⟩ := runSlice_ok h
  obtain ⟨⟨⟩, b3, h3, h⟩ := runSlice_ok h
  obtain ⟨a4, b4, h4, h⟩ := runSlice_ok h
  obtain ⟨a5, b5, h5, h⟩ := runSlice_ok h
  obtain ⟨⟨⟩, b6, h6, h⟩ := runSlice_ok h
  obtain ⟨a7, b7, h7, h⟩ := runSlice_ok h
  obtain ⟨⟨⟩, b8, h8, h⟩ := runSlice_ok h
  obtain ⟨a9, b9, h9, h⟩ := runSlice_ok h
  obtain ⟨a10, b10, h10, h⟩ := runSlice_ok h
  obtain ⟨a11, b11, h11, h⟩ := runSlice_ok h
  obtain ⟨a12, b12, h12, h⟩ := runSlice_ok h
  obtain ⟨a13, b13, h13, h⟩ := runSlice_ok h
  obtain ⟨a14, b14, h14, h⟩ := runSlice_ok h
  obtain ⟨a15, b15, h15, h⟩ := runSlice_ok h
  obtain ⟨a16, b16, h16, h⟩ := runSlice_ok h
  obtain ⟨a17, b17, h17, h⟩ := runSlice_ok h
  obtain ⟨a18, b18, h18, h⟩ := runSlice_ok h
  obtain ⟨a19, b19, h19, h⟩ := runSlice_ok h
  obtain ⟨a20, b20, h20, h⟩ := runSlice_ok h
  obtain ⟨a21, b21, h21, h⟩ := runSlice_ok h
  obtain ⟨a22, b22, h22, h⟩ := runSlice_ok h
  obtain ⟨a23, b23, h23, h⟩ := runSlice_ok h
  obtain ⟨a24, b24, h24, h⟩ := runSlice_ok h
  obtain ⟨a25, b25, h25, h⟩ := runSlice_ok h
  obtain ⟨a26, b26, h26, h⟩ := runSlice_ok h
  obtain ⟨a27, b27, h27, h⟩ := runSlice_ok h
  obtain ⟨a28, b28, h28, h⟩ := runSlice_ok h
  rcases hpc : parseCaps b28 with epc | ⟨⟨c0, c1⟩, rest⟩
  · rw [hpc] at h
    simp at h
  · rw [hpc] at h
    simp only [] at h
    rcases hd : Slicer.discard [34] rest with ⟨rd, rest2⟩
    rw [hd] at h
    cases rd with
    | error ed => simp at h
    | ok ud =>
      cases ud
      simp only [Except.ok.injEq] at h
      subst h
      obtain ⟨caps, hlen, hseg, hc0, hc1⟩ := parseCaps_ok_decomp hpc
      have hrest : rest = [34] ++ rest2 := discard_ok_decomp hd
      refine ⟨caps, rest2, hlen, ?_, hc0, hc1, rfl⟩
      have e1 : buf = a1 ++ 91 :: b1 := (sliceTo_ok_decomp h1).1
      have e2 : b1 = a2 ++ 93 :: b2 := (sliceTo_ok_decomp h2).1
      have e3 : b2 = [58, 32] ++ b3 := discard_ok_decomp h3
      have e4 : b3 = a4 ++ 58 :: b4 := (sliceTo_ok_decomp h4).1
      have e5 : b4 = a5 ++ 32 :: b5 := (sliceTo_ok_decomp h5).1
      have e6 : b5 = [91] ++ b6 := discard_ok_decomp h6
      have e7 : b6 = a7 ++ 93 :: b7 := (sliceTo_ok_decomp h7).1
      have e8 : b7 = [32] ++ b8 := discard_ok_decomp h8
      have e9 : b8 = a9 ++ 32 :: b9 := (sliceTo_ok_decomp h9).1
      have e10 : b9 = a10 ++ 47 :: b10 := (sliceTo_ok_decomp h10).1
      have e11 : b10 = a11 ++ 32 :: b11 := (sliceTo_ok_decomp h11).1
      have e12 : b11 = a12 ++ 47 :: b12 := (sliceTo_ok_decomp h12).1
      have e13 : b12 = a13 ++ 47 :: b13 := (sliceTo_ok_decomp h13).1
      have e14 : b13 = a14 ++ 47 :: b14 := (sliceTo_ok_decomp h14).1
      have e15 : b14 = a15 ++ 47 :: b15 := (sliceTo_ok_decomp h15).1
      have e16 : b15 = a16 ++ 32 :: b16 := (sliceTo_ok_decomp h16).1
      have e17 : b16 = a17 ++ 32 :: b17 := (sliceTo_ok_decomp h17).1
      have e18 : b17 = a18 ++ 32 :: b18 := (sliceTo_ok_decomp h18).1
      have e19 : b18 = a19 ++ 32 :: b19 := (sliceTo_ok_decomp h19).1
      have e20 : b19 = a20 ++ 32 :: b20 := (sliceTo_ok_decomp h20).1
      have e21 : b20 = a21 ++ 32 :: b21 := (sliceTo_ok_decomp h21).1
      have e22 : b21 = a22 ++ 47 :: b22 := (sliceTo_ok_decomp h22).1
      have e23 : b22 = a23 ++ 47 :: b23 := (sliceTo_ok_decomp h23).1
      have e24 : b23 = a24 ++ 47 :: b24 := (sliceTo_ok_decomp h24).1
      have e25 : b24 = a25 ++ 47 :: b25 := (sliceTo_ok_decomp h25).1
      have e26 : b25 = a26 ++ 32 :: b26 := (sliceTo_ok_decomp h26).1
      have e27 : b26 = a27 ++ 47 :: b27 := (sliceTo_ok_decomp h27).1
      have e28 : b27 = a28 ++ 32 :: b28 := (sliceTo_ok_decomp h28).1
      rw [e1, e2, e3, e4, e5, e6, e7, e8, e9, e10, e11, e12, e13, e14, e15, e16, e17, e18, e19, e20, e21, e22, e23, e24, e25, e26, e27, e28, hseg, hrest]
      rfl

-- ## Remainder slicing lemmas

theorem sor_of_ok {d : Nat} {buf s r : List Nat} (h : sliceTo d buf = (.ok s, r)) :
    sliceToOrRemainder d buf = (s, r) := by
  unfold sliceToOrRemainder
  rw [h]

theorem sor_not_mem {d : Nat} {buf : List Nat} (h : d ∉ buf) :
    sliceToOrRemainder d buf = (buf, []) := by
  unfold sliceToOrRemainder
  rw [sliceTo_not_mem h]

theorem sor_append {d : Nat} {a : List Nat} (r : List Nat) (h : d ∉ a) :
    sliceToOrRemainder d (a ++ d :: r) = (a, r) := by
  unfold sliceToOrRemainder
  rw [sliceTo_append r h]

theorem sor_fst_cons (d x : Nat) (y : List Nat) :
    (sliceToOrRemainder d (x :: y)).1
      = if x = d then [] else x :: (sliceToOrRemainder d y).1 := by
  by_cases hx : x = d
  · subst hx
    simp [sliceToOrRemainder, sliceTo]
  · rcases hs : sliceTo d y with ⟨rr, bb⟩
    cases rr with
    | ok s => simp [sliceToOrRemainder, sliceTo, hx, hs]
    | error e => simp [sliceToOrRemainder, sliceTo, hx, hs]

theorem sor_fst_ext (d : Nat) (a s1 s2 : List Nat) :
    (sliceToOrRemainder d (a ++ d :: s1)).1 = (sliceToOrRemainder d (a ++ d :: s2)).1 := by
  induction a with
  | nil => simp [sor_fst_cons]
  | cons x xs ih =>
    rw [List.cons_append, List.cons_append, sor_fst_cons, sor_fst_cons, ih]

-- ## Claim theorems for the cursor splitter

/-- C8: slice_to applied to any cursor state and delimiter byte
returns exactly the bytes strictly before the first occurrence of the
delimiter and advances the cursor just past that occurrence; when the
delimiter does not occur it fails with ExpectedToken of that delimiter
and the cursor is unchanged. -/
theorem C8_sliceTo_spec (d : Nat) (buf : List Nat) :
    (∀ pre post, buf = pre ++ d :: post → d ∉ pre → sliceTo d buf = (.ok pre, post)) ∧
    (d ∉ buf → sliceTo d buf = (.error (.ExpectedToken d), buf)) := by
  constructor
  · intro pre post hb hm
    rw [hb]
    exact sliceTo_append post hm
  · intro hm
    exact sliceTo_not_mem hm

/-- Witness for C8 at a concrete buffer: the byte 46 is found after
one byte in the first buffer and is missing from the second. -/
theorem C8_sliceTo_spec_witness :
    sliceTo 46 [102, 46, 98] = (.ok [102], [98]) ∧
    sliceTo 46 [102, 98] = (.error (.ExpectedToken 46), [102, 98]) :=
  ⟨(C8_sliceTo_spec 46 [102, 46, 98]).1 [102] [98] rfl (by decide),
   (C8_sliceTo_spec 46 [102, 98]).2 (by decide)⟩

/-- C6: slice_to_or_remainder agrees with slice_to whenever the
delimiter is found; when the delimiter is missing it consumes and
returns the entire remaining buffer, leaving the cursor empty; and
consequently a grammar line whose request part has no closing quote
still parses, with the request line returned verbatim as the whole
remainder of the buffer. -/
theorem C6_sliceToOrRemainder_spec :
    (∀ (d : Nat) (buf s r : List Nat), sliceTo d buf = (.ok s, r) →
      sliceToOrRemainder d buf = (s, r)) ∧
    (∀ (d : Nat) (buf : List Nat), d ∉ buf → sliceToOrRemainder d buf = (buf, [])) ∧
    (∀ (pn pid ip port date fe be srv tq tw tc tr tt st br rqc rsc tm ca cf cb cs cr sq bq : List Nat) (caps : List (List Nat)) (req : List Nat),
      91 ∉ pn → 93 ∉ pid → 58 ∉ ip → 32 ∉ port → 93 ∉ date → 32 ∉ fe → 47 ∉ be → 32 ∉ srv → 47 ∉ tq → 47 ∉ tw → 47 ∉ tc → 47 ∉ tr → 32 ∉ tt → 32 ∉ st → 32 ∉ br → 32 ∉ rqc → 32 ∉ rsc → 32 ∉ tm → 47 ∉ ca → 47 ∉ cf → 47 ∉ cb → 47 ∉ cs → 32 ∉ cr → 47 ∉ sq → 32 ∉ bq →
      caps.length ≤ 2 → (∀ c ∈ caps, 125 ∉ c) → 34 ∉ req →
      LogEntry.from_bytes (mkLine pn pid ip port date fe be srv tq tw tc tr tt st br rqc rsc tm ca cf cb cs cr sq bq caps req)
        = .ok { process_name := pn,
                pid := pid,
                client_ip := ip,
                client_port := port,
                accept_date := date,
                frontend_name := fe,
                backend_name := be,
                server_name := srv,
                request_time := tq,
                queue_time := tw,
                connect_time := tc,
                response_time := tr,
                total_time := tt,
                status_code := st,
                bytes_read := br,
                captured_request_cookie := rqc,
                captured_response_cookie := rsc,
                termination_state := tm,
                active_connections := ca,
                frontend_connections := cf,
                backend_connections := cb,
                server_connections := cs,
                retried_connections := cr,
                server_queue := sq,
                backend_queue := bq,
                captures0 := caps.getD 0 [],
                captures1 := caps.getD 1 [],
                http_request := req }) := by
  refine ⟨fun d buf s r h => sor_of_ok h, fun d buf h => sor_not_mem h, ?_⟩
  intro pn pid ip port date fe be srv tq tw tc tr tt st br rqc rsc tm ca cf cb cs cr sq bq caps req hpn hpid hip hport hdate hfe hbe hsrv htq htw htc htr htt hst hbr hrqc hrsc htm hca hcf hcb hcs hcr hsq hbq hlen hcap hreq
  have h1 := from_bytes_mkLine pn pid ip port date fe be srv tq tw tc tr tt st br rqc rsc tm ca cf cb cs cr sq bq caps req hpn hpid hip hport hdate hfe hbe hsrv htq htw htc htr htt hst hbr hrqc hrsc htm hca hcf hcb hcs hcr hsq hbq hlen hcap
  rw [sor_not_mem hreq] at h1
  exact h1

/-- Witness for C6: a concrete found case, a concrete missing case,
and a concrete one field line whose request part is truncated. -/
theorem C6_sliceToOrRemainder_spec_witness :
    sliceToOrRemainder 46 [102, 46, 98] = ([102], [98]) ∧
    sliceToOrRemainder 46 [102, 98] = ([102, 98], []) ∧
    LogEntry.from_bytes (mkLine [112] [49] [105] [53] [100] [102] [98] [115] [49] [50] [51] [52] [53] [50] [54] [99] [100] [45] [49] [49] [49] [49] [48] [48] [48] [] [71, 69, 84])
      = .ok { process_name := [112],
              pid := [49],
              client_ip := [105],
              client_port := [53],
              accept_date := [100],
              frontend_name := [102],
              backend_name := [98],
              server_name := [115],
              request_time := [49],
              queue_time := [50],
              connect_time := [51],
              response_time := [52],
              total_time := [53],
              status_code := [50],
              bytes_read := [54],
              captured_request_cookie := [99],
              captured_response_cookie := [100],
              termination_state := [45],
              active_connections := [49],
              frontend_connections := [49],
              backend_connections := [49],
              server_connections := [49],
              retried_connections := [48],
              server_queue := [48],
              backend_queue := [48],
              captures0 := List.getD [] 0 [],
              captures1 := List.getD [] 1 [],
              http_request := [71, 69, 84] } := by
  refine ⟨C6_sliceToOrRemainder_spec.1 46 [102, 46, 98] [102] [98] rfl,
    C6_sliceToOrRemainder_spec.2.1 46 [102, 98] (by decide),
    C6_sliceToOrRemainder_spec.2.2 [112] [49] [105] [53] [100] [102] [98] [115] [49] [50] [51] [52] [53] [50] [54] [99] [100] [45] [49] [49] [49] [49] [48] [48] [48] [] [71, 69, 84]
      (by decide) (by decide) (by decide) (by decide) (by decide) (by decide) (by decide) (by decide) (by decide) (by decide) (by decide) (by decide) (by decide) (by decide) (by decide) (by decide) (by decide) (by decide) (by decide) (by decide) (by decide) (by decide) (by decide) (by decide) (by decide) (by decide) (by decide) (by decide)⟩

/-- C7: parsing is all or nothing.  A failing slice_to or discard
leaves the cursor exactly where it was and carries the originating
error; every successful parse decomposes the buffer along the entire
fixed grammar, so a line missing any required delimiter of the prefix
can never produce an entry; and a concrete line with no opening
bracket fails with the error of the very first splitter step. -/
theorem C7_all_or_nothing :
    (∀ (d : Nat) (buf : List Nat) (e : SliceError) (b2 : List Nat),
      sliceTo d buf = (.error e, b2) → b2 = buf ∧ e = .ExpectedToken d) ∧
    (∀ (p buf : List Nat) (e : SliceError) (b2 : List Nat),
      Slicer.discard p buf = (.error e, b2) → b2 = buf ∧ e = .UnexpectedTokens) ∧
    (∀ (buf : List Nat) (en : LogEntry), LogEntry.from_bytes buf = .ok en →
      ∃ caps tail, caps.length ≤ 2 ∧
        buf = mkLine en.process_name en.pid en.client_ip en.client_port en.accept_date
          en.frontend_name en.backend_name en.server_name en.request_time en.queue_time
          en.connect_time en.response_time en.total_time en.status_code en.bytes_read
          en.captured_request_cookie en.captured_response_cookie en.termination_state
          en.active_connections en.frontend_connections en.backend_connections
          en.server_connections en.retried_connections en.server_queue en.backend_queue
          caps tail) ∧
    LogEntry.from_bytes [104, 105] = .error (.ExpectedToken 91) := by
  refine ⟨?_, ?_, ?_, rfl⟩
  · intro d buf e b2 h
    have := sliceTo_error_decomp h
    exact ⟨this.1, this.2.1⟩
  · intro p buf e b2 h
    exact discard_error_decomp h
  · intro buf en h
    obtain ⟨caps, tail, hlen, hbuf, _⟩ := from_bytes_ok_decomp h
    exact ⟨caps, tail, hlen, hbuf⟩

/-- Witness for C7: concrete failing splitter calls with unchanged
cursors, and the decomposition of the concrete sample line. -/
theorem C7_all_or_nothing_witness :
    ([102] = [102] ∧ SliceError.ExpectedToken 46 = .ExpectedToken 46) ∧
    ([102] = [102] ∧ SliceError.UnexpectedTokens = .UnexpectedTokens) ∧
    (∃ caps tail, caps.length ≤ 2 ∧
      sampleLine = mkLine sampleEntry.process_name sampleEntry.pid sampleEntry.client_ip
        sampleEntry.client_port sampleEntry.accept_date sampleEntry.frontend_name
        sampleEntry.backend_name sampleEntry.server_name sampleEntry.request_time
        sampleEntry.queue_time sampleEntry.connect_time sampleEntry.response_time
        sampleEntry.total_time sampleEntry.status_code sampleEntry.bytes_read
        sampleEntry.captured_request_cookie sampleEntry.captured_response_cookie
        sampleEntry.termination_state sampleEntry.active_connections
        sampleEntry.frontend_connections sampleEntry.backend_connections
        sampleEntry.server_connections sampleEntry.retried_connections
        sampleEntry.server_queue sampleEntry.backend_queue caps tail) :=
  ⟨C7_all_or_nothing.1 46 [102] (.ExpectedToken 46) [102] rfl,
   C7_all_or_nothing.2.1 [103] [102] .UnexpectedTokens [102] rfl,
   C7_all_or_nothing.2.2.1 sampleLine sampleEntry rfl⟩

-- ## Derived accessor lemmas

theorem splitOnByte_ne_nil (d : Nat) (l : List Nat) : splitOnByte d l ≠ [] := by
  induction l with
  | nil => simp [splitOnByte]
  | cons x xs ih =>
    by_cases hx : x = d
    · simp [splitOnByte, hx]
    · simp only [splitOnByte, if_neg hx]
      rcases hs : splitOnByte d xs with _ | ⟨s, ss⟩
      · simp
      · simp

/-- C9: splitting a slice always yields at least one token, so the
http method accessor is never absent: even for an empty request line
the method is the empty slice while the uri and version are absent;
likewise captured_header at sub index zero of either capture slot is a
present, possibly empty, slice. -/
theorem C9_accessors_never_absent :
    (∀ e : LogEntry, ∃ m, e.http_method = some m) ∧
    (∀ e : LogEntry, e.http_request = [] →
      e.http_method = some [] ∧ e.http_uri = none ∧ e.http_version = none) ∧
    (∀ (e : LogEntry) (i : Nat), i ≤ 1 → ∃ v, e.captured_header i 0 = some (some v)) := by
  refine ⟨?_, ?_, ?_⟩
  · intro e
    rcases hs : splitOnByte 32 e.http_request with _ | ⟨s, ss⟩
    · exact absurd hs (splitOnByte_ne_nil 32 e.http_request)
    · exact ⟨s, by simp [LogEntry.http_method, hs]⟩
  · intro e h
    refine ⟨?_, ?_, ?_⟩ <;>
      simp [LogEntry.http_method, LogEntry.http_uri, LogEntry.http_version, h, splitOnByte]
  · intro e i hi
    rcases i with _ | _ | i2
    · rcases hs : splitOnByte 124 e.captures0 with _ | ⟨s, ss⟩
      · exact absurd hs (splitOnByte_ne_nil 124 e.captures0)
      · exact ⟨s, by simp [LogEntry.captured_header, LogEntry.capturesIdx, hs]⟩
    · rcases hs : splitOnByte 124 e.captures1 with _ | ⟨s, ss⟩
      · exact absurd hs (splitOnByte_ne_nil 124 e.captures1)
      · exact ⟨s, by simp [LogEntry.captured_header, LogEntry.capturesIdx, hs]⟩
    · omega

/-- Witness for C9 at the sample entry and at an entry with an empty
request line and empty capture slots. -/
theorem C9_accessors_never_absent_witness :
    (∃ m, sampleEntry.http_method = some m) ∧
    (emptyEntry.http_method = some [] ∧ emptyEntry.http_uri = none ∧
      emptyEntry.http_version = none) ∧
    (∃ v, sampleEntry.captured_header 1 0 = some (some v)) :=
  ⟨C9_accessors_never_absent.1 sampleEntry,
   C9_accessors_never_absent.2.1 emptyEntry rfl,
   C9_accessors_never_absent.2.2 sampleEntry 1 (by decide)⟩

/-- A successfully decoded captured header field always carries a
first index of at most one, because decode validates it. -/
theorem decode_capturedHeader_le {s : List Char} {i j : Nat}
    (h : HCut.Field.decode s = .ok (.CapturedHeader i j)) : i ≤ 1 := by
  unfold HCut.Field.decode at h
  by_cases h1 : s = "process_name".toList
  · rw [if_pos h1] at h
    exact Except.noConfusion h fun hab => HCut.Field.noConfusion hab
  rw [if_neg h1] at h
  by_cases h2 : s = "pid".toList
  · rw [if_pos h2] at h
    exact Except.noConfusion h fun hab => HCut.Field.noConfusion hab
  rw [if_neg h2] at h
  by_cases h3 : s = "client_ip".toList
  · rw [if_pos h3] at h
    exact Except.noConfusion h fun hab => HCut.Field.noConfusion hab
  rw [if_neg h3] at h
  by_cases h4 : s = "client_port".toList
  · rw [if_pos h4] at h
    exact Except.noConfusion h fun hab => HCut.Field.noConfusion hab
  rw [if_neg h4] at h
  by_cases h5 : s = "accept_date".toList
  · rw [if_pos h5] at h
    exact Except.noConfusion h fun hab => HCut.Field.noConfusion hab
  rw [if_neg h5] at h
  by_cases h6 : s = "frontend_name".toList
  · rw [if_pos h6] at h
    exact Except.noConfusion h fun hab => HCut.Field.noConfusion hab
  rw [if_neg h6] at h
  by_cases h7 : s = "backend_name".toList
  · rw [if_pos h7] at h
    exact Except.noConfusion h fun hab => HCut.Field.noConfusion hab
  rw [if_neg h7] at h
  by_cases h8 : s = "server_name".toList
  · rw [if_pos h8] at h
    exact Except.noConfusion h fun hab => HCut.Field.noConfusion hab
  rw [if_neg h8] at h
  by_cases h9 : s = "Tq".toList
  · rw [if_pos h9] at h
    exact Except.noConfusion h fun hab => HCut.Field.noConfusion hab
  rw [if_neg h9] at h
  by_cases h10 : s = "Tw".toList
  · rw [if_pos h10] at h
    exact Except.noConfusion h fun hab => HCut.Field.noConfusion hab
  rw [if_neg h10] at h
  by_cases h11 : s = "Tc".toList
  · rw [if_pos h11] at h
    exact Except.noConfusion h fun hab => HCut.Field.noConfusion hab
  rw [if_neg h11] at h
  by_cases h12 : s = "Tr".toList
  · rw [if_pos h12] at h
    exact Except.noConfusion h fun hab => HCut.Field.noConfusion hab
  rw [if_neg h12] at h
  by_cases h13 : s = "Tt".toList
  · rw [if_pos h13] at h
    exact Except.noConfusion h fun hab => HCut.Field.noConfusion hab
  rw [if_neg h13] at h
  by_cases h14 : s = "status_code".toList
  · rw [if_pos h14] at h
    exact Except.noConfusion h fun hab => HCut.Field.noConfusion hab
  rw [if_neg h14] at h
  by_cases h15 : s = "bytes_read".toList
  · rw [if_pos h15] at h
    exact Except.noConfusion h fun hab => HCut.Field.noConfusion hab
  rw [if_neg h15] at h
  by_cases h16 : s = "captured_request_cookie".toList
  · rw [if_pos h16] at h
    exact Except.noConfusion h fun hab => HCut.Field.noConfusion hab
  rw [if_neg h16] at h
  by_cases h17 : s = "captured_response_cookie".toList
  · rw [if_pos h17] at h
    exact Except.noConfusion h fun hab => HCut.Field.noConfusion hab
  rw [if_neg h17] at h
  by_cases h18 : s = "termination_state".toList
  · rw [if_pos h18] at h
    exact Except.noConfusion h fun hab => HCut.Field.noConfusion hab
  rw [if_neg h18] at h
  by_cases h19 : s = "actconn".toList
  · rw [if_pos h19] at h
    exact Except.noConfusion h fun hab => HCut.Field.noConfusion hab
  rw [if_neg h19] at h
  by_cases h20 : s = "feconn".toList
  · rw [if_pos h20] at h
    exact Except.noConfusion h fun hab => HCut.Field.noConfusion hab
  rw [if_neg h20] at h
  by_cases h21 : s = "beconn".toList
  · rw [if_pos h21] at h
    exact Except.noConfusion h fun hab => HCut.Field.noConfusion hab
  rw [if_neg h21] at h
  by_cases h22 : s = "srv_conn".toList
  · rw [if_pos h22] at h
    exact Except.noConfusion h fun hab => HCut.Field.noConfusion hab
  rw [if_neg h22] at h
  by_cases h23 : s = "retries".toList
  · rw [if_pos h23] at h
    exact Except.noConfusion h fun hab => HCut.Field.noConfusion hab
  rw [if_neg h23] at h
  by_cases h24 : s = "srv_queue".toList
  · rw [if_pos h24] at h
    exact Except.noConfusion h fun hab => HCut.Field.noConfusion hab
  rw [if_neg h24] at h
  by_cases h25 : s = "backend_queue".toList
  · rw [if_pos h25] at h
    exact Except.noConfusion h fun hab => HCut.Field.noConfusion hab
  rw [if_neg h25] at h
  by_cases h26 : s = "http_request".toList
  · rw [if_pos h26] at h
    exact Except.noConfusion h fun hab => HCut.Field.noConfusion hab
  rw [if_neg h26] at h
  by_cases h27 : s = "http_method".toList
  · rw [if_pos h27] at h
    exact Except.noConfusion h fun hab => HCut.Field.noConfusion hab
  rw [if_neg h27] at h
  by_cases h28 : s = "http_uri".toList
  · rw [if_pos h28] at h
    exact Except.noConfusion h fun hab => HCut.Field.noConfusion hab
  rw [if_neg h28] at h
  by_cases h29 : s = "http_version".toList
  · rw [if_pos h29] at h
    exact Except.noConfusion h fun hab => HCut.Field.noConfusion hab
  rw [if_neg h29] at h
  by_cases h30 : startsWithL chPat s = true
  · rw [if_pos h30] at h
    by_cases h31 : s.getLast? ≠ some ']'
    · rw [if_pos h31] at h
      exact Except.noConfusion h
    rw [if_neg h31] at h
    rcases hm : (splitOnSepRB (trimEndMatchesRB (trimStartMatchesCH s))).mapM parseUsize with _ | indices
    · rw [hm] at h
      simp only [] at h
      exact Except.noConfusion h
    · rw [hm] at h
      simp only [] at h
      rcases indices with _ | ⟨i1, _ | ⟨j1, _ | ⟨k1, irest⟩⟩⟩
      · exact Except.noConfusion h
      · exact Except.noConfusion h
      · simp only [] at h
        by_cases hgt : i1 > 1
        · rw [if_pos hgt] at h
          exact Except.noConfusion h
        rw [if_neg hgt] at h
        simp only [Except.ok.injEq, HCut.Field.CapturedHeader.injEq] at h
        omega
      · exact Except.noConfusion h
  rw [if_neg h30] at h
  exact Except.noConfusion h

/-- C5: extraction is total and infallible.  Every field produced by a
successful decode extracts from every entry to some byte slice, with
no abort; and the absent derived accessors, a missing uri or version
token or an out of range capture sub index, extract as the empty
slice. -/
theorem C5_extract_total :
    (∀ (s : List Char) (f : HCut.Field), HCut.Field.decode s = .ok f →
      ∀ e : LogEntry, ∃ bs, f.extract_content_from e = some bs) ∧
    (∀ e : LogEntry, e.http_uri = none →
      HCut.Field.HttpUri.extract_content_from e = some []) ∧
    (∀ e : LogEntry, e.http_version = none →
      HCut.Field.HttpVersion.extract_content_from e = some []) ∧
    (∀ (e : LogEntry) (i j : Nat), i ≤ 1 → e.captured_header i j = some none →
      (HCut.Field.CapturedHeader i j).extract_content_from e = some []) := by
  refine ⟨?_, ?_, ?_, ?_⟩
  · intro s f h e
    cases f
    case CapturedHeader i j =>
      have hb := decode_capturedHeader_le h
      rcases i with _ | _ | i2
      · exact ⟨_, rfl⟩
      · exact ⟨_, rfl⟩
      · omega
    all_goals exact ⟨_, rfl⟩
  · intro e h
    simp [HCut.Field.extract_content_from, h]
  · intro e h
    simp [HCut.Field.extract_content_from, h]
  · intro e i j hi h
    rcases i with _ | _ | i2
    · simp [HCut.Field.extract_content_from, h]
    · simp [HCut.Field.extract_content_from, h]
    · omega

/-- Witness for C5: a decoded captured header field extracted from the
sample entry, and concrete absent accessors extracting as empty. -/
theorem C5_extract_total_witness :
    (∃ bs, (HCut.Field.CapturedHeader 1 3).extract_content_from sampleEntry = some bs) ∧
    HCut.Field.HttpUri.extract_content_from emptyEntry = some [] ∧
    HCut.Field.HttpVersion.extract_content_from emptyEntry = some [] ∧
    (HCut.Field.CapturedHeader 1 5).extract_content_from sampleEntry = some [] :=
  ⟨C5_extract_total.1 "captured_header[1][3]".toList (.CapturedHeader 1 3) rfl sampleEntry,
   C5_extract_total.2.1 emptyEntry rfl,
   C5_extract_total.2.2.1 emptyEntry rfl,
   C5_extract_total.2.2.2 sampleEntry 1 5 (by decide) rfl⟩

-- ## Claim theorems for the capture blocks and the trailing request

/-- C4: capture block filling is positional and tolerant of absence.
A line with zero, one, or two brace delimited blocks parses; the first
block found fills slot 0 and the second fills slot 1; with one block
slot 1 is empty; with zero blocks both slots are empty and every
indexed accessor over them extracts as the empty slice; the absence of
an opening brace is not a parse error. -/
theorem C4_capture_blocks :
    (∀ (pn pid ip port date fe be srv tq tw tc tr tt st br rqc rsc tm ca cf cb cs cr sq bq : List Nat) (tail : List Nat),
      91 ∉ pn → 93 ∉ pid → 58 ∉ ip → 32 ∉ port → 93 ∉ date → 32 ∉ fe → 47 ∉ be → 32 ∉ srv → 47 ∉ tq → 47 ∉ tw → 47 ∉ tc → 47 ∉ tr → 32 ∉ tt → 32 ∉ st → 32 ∉ br → 32 ∉ rqc → 32 ∉ rsc → 32 ∉ tm → 47 ∉ ca → 47 ∉ cf → 47 ∉ cb → 47 ∉ cs → 32 ∉ cr → 47 ∉ sq → 32 ∉ bq →
      LogEntry.from_bytes (mkLine pn pid ip port date fe be srv tq tw tc tr tt st br rqc rsc tm ca cf cb cs cr sq bq [] tail)
        = .ok { process_name := pn,
                pid := pid,
                client_ip := ip,
                client_port := port,
                accept_date := date,
                frontend_name := fe,
                backend_name := be,
                server_name := srv,
                request_time := tq,
                queue_time := tw,
                connect_time := tc,
                response_time := tr,
                total_time := tt,
                status_code := st,
                bytes_read := br,
                captured_request_cookie := rqc,
                captured_response_cookie := rsc,
                termination_state := tm,
                active_connections := ca,
                frontend_connections := cf,
                backend_connections := cb,
                server_connections := cs,
                retried_connections := cr,
                server_queue := sq,
                backend_queue := bq,
                captures0 := [],
                captures1 := [],
                http_request := (sliceToOrRemainder 34 tail).1 }) ∧
    (∀ (pn pid ip port date fe be srv tq tw tc tr tt st br rqc rsc tm ca cf cb cs cr sq bq : List Nat) (c0 tail : List Nat),
      91 ∉ pn → 93 ∉ pid → 58 ∉ ip → 32 ∉ port → 93 ∉ date → 32 ∉ fe → 47 ∉ be → 32 ∉ srv → 47 ∉ tq → 47 ∉ tw → 47 ∉ tc → 47 ∉ tr → 32 ∉ tt → 32 ∉ st → 32 ∉ br → 32 ∉ rqc → 32 ∉ rsc → 32 ∉ tm → 47 ∉ ca → 47 ∉ cf → 47 ∉ cb → 47 ∉ cs → 32 ∉ cr → 47 ∉ sq → 32 ∉ bq → 125 ∉ c0 →
      LogEntry.from_bytes (mkLine pn pid ip port date fe be srv tq tw tc tr tt st br rqc rsc tm ca cf cb cs cr sq bq [c0] tail)
        = .ok { process_name := pn,
                pid := pid,
                client_ip := ip,
                client_port := port,
                accept_date := date,
                frontend_name := fe,
                backend_name := be,
                server_name := srv,
                request_time := tq,
                queue_time := tw,
                connect_time := tc,
                response_time := tr,
                total_time := tt,
                status_code := st,
                bytes_read := br,
                captured_request_cookie := rqc,
                captured_response_cookie := rsc,
                termination_state := tm,
                active_connections := ca,
                frontend_connections := cf,
                backend_connections := cb,
                server_connections := cs,
                retried_connections := cr,
                server_queue := sq,
                backend_queue := bq,
                captures0 := c0,
                captures1 := [],
                http_request := (sliceToOrRemainder 34 tail).1 }) ∧
    (∀ (pn pid ip port date fe be srv tq tw tc tr tt st br rqc rsc tm ca cf cb cs cr sq bq : List Nat) (c0 c1 tail : List Nat),
      91 ∉ pn → 93 ∉ pid → 58 ∉ ip → 32 ∉ port → 93 ∉ date → 32 ∉ fe → 47 ∉ be → 32 ∉ srv → 47 ∉ tq → 47 ∉ tw → 47 ∉ tc → 47 ∉ tr → 32 ∉ tt → 32 ∉ st → 32 ∉ br → 32 ∉ rqc → 32 ∉ rsc → 32 ∉ tm → 47 ∉ ca → 47 ∉ cf → 47 ∉ cb → 47 ∉ cs → 32 ∉ cr → 47 ∉ sq → 32 ∉ bq → 125 ∉ c0 → 125 ∉ c1 →
      LogEntry.from_bytes (mkLine pn pid ip port date fe be srv tq tw tc tr tt st br rqc rsc tm ca cf cb cs cr sq bq [c0, c1] tail)
        = .ok { process_name := pn,
                pid := pid,
                client_ip := ip,
                client_port := port,
                accept_date := date,
                frontend_name := fe,
                backend_name := be,
                server_name := srv,
                request_time := tq,
                queue_time := tw,
                connect_time := tc,
                response_time := tr,
                total_time := tt,
                status_code := st,
                bytes_read := br,
                captured_request_cookie := rqc,
                captured_response_cookie := rsc,
                termination_state := tm,
                active_connections := ca,
                frontend_connections := cf,
                backend_connections := cb,
                server_connections := cs,
                retried_connections := cr,
                server_queue := sq,
                backend_queue := bq,
                captures0 := c0,
                captures1 := c1,
                http_request := (sliceToOrRemainder 34 tail).1 }) ∧
    (∀ (e : LogEntry), e.captures0 = [] → e.captures1 = [] →
      ∀ (i j : Nat), i ≤ 1 → (HCut.Field.CapturedHeader i j).extract_content_from e = some []) := by
  refine ⟨?_, ?_, ?_, ?_⟩
  · intro pn pid ip port date fe be srv tq tw tc tr tt st br rqc rsc tm ca cf cb cs cr sq bq tail hpn hpid hip hport hdate hfe hbe hsrv htq htw htc htr htt hst hbr hrqc hrsc htm hca hcf hcb hcs hcr hsq hbq
    exact from_bytes_mkLine pn pid ip port date fe be srv tq tw tc tr tt st br rqc rsc tm ca cf cb cs cr sq bq [] tail hpn hpid hip hport hdate hfe hbe hsrv htq htw htc htr htt hst hbr hrqc hrsc htm hca hcf hcb hcs hcr hsq hbq (by simp) (by simp)
  · intro pn pid ip port date fe be srv tq tw tc tr tt st br rqc rsc tm ca cf cb cs cr sq bq c0 tail hpn hpid hip hport hdate hfe hbe hsrv htq htw htc htr htt hst hbr hrqc hrsc htm hca hcf hcb hcs hcr hsq hbq hc0
    exact from_bytes_mkLine pn pid ip port date fe be srv tq tw tc tr tt st br rqc rsc tm ca cf cb cs cr sq bq [c0] tail hpn hpid hip hport hdate hfe hbe hsrv htq htw htc htr htt hst hbr hrqc hrsc htm hca hcf hcb hcs hcr hsq hbq (by simp)
      (by intro c hc; simp only [List.mem_singleton] at hc; subst hc; exact hc0)
  · intro pn pid ip port date fe be srv tq tw tc tr tt st br rqc rsc tm ca cf cb cs cr sq bq c0 c1 tail hpn hpid hip hport hdate hfe hbe hsrv htq htw htc htr htt hst hbr hrqc hrsc htm hca hcf hcb hcs hcr hsq hbq hc0 hc1
    exact from_bytes_mkLine pn pid ip port date fe be srv tq tw tc tr tt st br rqc rsc tm ca cf cb cs cr sq bq [c0, c1] tail hpn hpid hip hport hdate hfe hbe hsrv htq htw htc htr htt hst hbr hrqc hrsc htm hca hcf hcb hcs hcr hsq hbq (by simp)
      (by
        intro c hc
        simp only [List.mem_cons, List.not_mem_nil, or_false] at hc
        rcases hc with rfl | rfl
        · exact hc0
        · exact hc1)
  · intro e h0 h1 i j hi
    rcases i with _ | _ | i2
    · rcases j with _ | j <;>
        simp [HCut.Field.extract_content_from, LogEntry.captured_header,
          LogEntry.capturesIdx, h0, splitOnByte]
    · rcases j with _ | j <;>
        simp [HCut.Field.extract_content_from, LogEntry.captured_header,
          LogEntry.capturesIdx, h1, splitOnByte]
    · omega

/-- Witness for C4: one concrete line for each number of capture
blocks, and an indexed extraction over empty slots. -/
theorem C4_capture_blocks_witness :
    LogEntry.from_bytes (mkLine [112] [49] [105] [53] [100] [102] [98] [115] [49] [50] [51] [52] [53] [50] [54] [99] [100] [45] [49] [49] [49] [49] [48] [48] [48] [] [34])
      = .ok { process_name := [112],
              pid := [49],
              client_ip := [105],
              client_port := [53],
              accept_date := [100],
              frontend_name := [102],
              backend_name := [98],
              server_name := [115],
              request_time := [49],
              queue_time := [50],
              connect_time := [51],
              response_time := [52],
              total_time := [53],
              status_code := [50],
              bytes_read := [54],
              captured_request_cookie := [99],
              captured_response_cookie := [100],
              termination_state := [45],
              active_connections := [49],
              frontend_connections := [49],
              backend_connections := [49],
              server_connections := [49],
              retried_connections := [48],
              server_queue := [48],
              backend_queue := [48],
              captures0 := [],
              captures1 := [],
              http_request := [] } ∧
    LogEntry.from_bytes (mkLine [112] [49] [105] [53] [100] [102] [98] [115] [49] [50] [51] [52] [53] [50] [54] [99] [100] [45] [49] [49] [49] [49] [48] [48] [48] [[120]] [34])
      = .ok { process_name := [112],
              pid := [49],
              client_ip := [105],
              client_port := [53],
              accept_date := [100],
              frontend_name := [102],
              backend_name := [98],
              server_name := [115],
              request_time := [49],
              queue_time := [50],
              connect_time := [51],
              response_time := [52],
              total_time := [53],
              status_code := [50],
              bytes_read := [54],
              captured_request_cookie := [99],
              captured_response_cookie := [100],
              termination_state := [45],
              active_connections := [49],
              frontend_connections := [49],
              backend_connections := [49],
              server_connections := [49],
              retried_connections := [48],
              server_queue := [48],
              backend_queue := [48],
              captures0 := [120],
              captures1 := [],
              http_request := [] } ∧
    LogEntry.from_bytes (mkLine [112] [49] [105] [53] [100] [102] [98] [115] [49] [50] [51] [52] [53] [50] [54] [99] [100] [45] [49] [49] [49] [49] [48] [48] [48] [[120], [121]] [34])
      = .ok { process_name := [112],
              pid := [49],
              client_ip := [105],
              client_port := [53],
              accept_date := [100],
              frontend_name := [102],
              backend_name := [98],
              server_name := [115],
              request_time := [49],
              queue_time := [50],
              connect_time := [51],
              response_time := [52],
              total_time := [53],
              status_code := [50],
              bytes_read := [54],
              captured_request_cookie := [99],
              captured_response_cookie := [100],
              termination_state := [45],
              active_connections := [49],
              frontend_connections := [49],
              backend_connections := [49],
              server_connections := [49],
              retried_connections := [48],
              server_queue := [48],
              backend_queue := [48],
              captures0 := [120],
              captures1 := [121],
              http_request := [] } ∧
    (HCut.Field.CapturedHeader 0 7).extract_content_from emptyEntry = some [] :=
  ⟨C4_capture_blocks.1 [112] [49] [105] [53] [100] [102] [98] [115] [49] [50] [51] [52] [53] [50] [54] [99] [100] [45] [49] [49] [49] [49] [48] [48] [48] [34] (by decide) (by decide) (by decide) (by decide) (by decide) (by decide) (by decide) (by decide) (by decide) (by decide) (by decide) (by decide) (by decide) (by decide) (by decide) (by decide) (by decide) (by decide) (by decide) (by decide) (by decide) (by decide) (by decide) (by decide) (by decide),
   C4_capture_blocks.2.1 [112] [49] [105] [53] [100] [102] [98] [115] [49] [50] [51] [52] [53] [50] [54] [99] [100] [45] [49] [49] [49] [49] [48] [48] [48] [120] [34] (by decide) (by decide) (by decide) (by decide) (by decide) (by decide) (by decide) (by decide) (by decide) (by decide) (by decide) (by decide) (by decide) (by decide) (by decide) (by decide) (by decide) (by decide) (by decide) (by decide) (by decide) (by decide) (by decide) (by decide) (by decide) (by decide),
   C4_capture_blocks.2.2.1 [112] [49] [105] [53] [100] [102] [98] [115] [49] [50] [51] [52] [53] [50] [54] [99] [100] [45] [49] [49] [49] [49] [48] [48] [48] [120] [121] [34] (by decide) (by decide) (by decide) (by decide) (by decide) (by decide) (by decide) (by decide) (by decide) (by decide) (by decide) (by decide) (by decide) (by decide) (by decide) (by decide) (by decide) (by decide) (by decide) (by decide) (by decide) (by decide) (by decide) (by decide) (by decide) (by decide) (by decide),
   C4_capture_blocks.2.2.2 emptyEntry rfl rfl 0 7 (by decide)⟩

/-- C3 counterexample: the sample line parses, yet the bytes between
the end of the pid field and the start of the client ip field are not
the claimed four byte sequence right bracket, space, colon, space. -/
theorem C3_counterexample :
    LogEntry.from_bytes sampleLine = .ok sampleEntry ∧
    ¬ (∃ rest, sampleLine = sampleEntry.process_name
        ++ 91 :: (sampleEntry.pid ++ 93 :: 32 :: 58 :: 32 :: (sampleEntry.client_ip ++ 58 :: rest))) := by
  refine ⟨rfl, ?_⟩
  rintro ⟨rest, h⟩
  simp [sampleLine, sampleEntry] at h

/-- C3 (amended): every accepted line carries the literal bytes right
bracket, colon, space, in that order, between the end of the pid field
and the start of the client ip field. -/
theorem C3_pid_ip_delimiter (buf : List Nat) (e : LogEntry)
    (h : LogEntry.from_bytes buf = .ok e) :
    ∃ rest, buf = e.process_name
      ++ 91 :: (e.pid ++ 93 :: 58 :: 32 :: (e.client_ip ++ 58 :: rest)) := by
  obtain ⟨caps, tail, _, hbuf, _⟩ := from_bytes_ok_decomp h
  refine ⟨e.client_port ++ 32 :: 91 :: (e.accept_date ++ 93 :: 32 :: (e.frontend_name ++ 32 :: (e.backend_name ++ 47 :: (e.server_name ++ 32 :: (e.request_time ++ 47 :: (e.queue_time ++ 47 :: (e.connect_time ++ 47 :: (e.response_time ++ 47 :: (e.total_time ++ 32 :: (e.status_code ++ 32 :: (e.bytes_read ++ 32 :: (e.captured_request_cookie ++ 32 :: (e.captured_response_cookie ++ 32 :: (e.termination_state ++ 32 :: (e.active_connections ++ 47 :: (e.frontend_connections ++ 47 :: (e.backend_connections ++ 47 :: (e.server_connections ++ 47 :: (e.retried_connections ++ 32 :: (e.server_queue ++ 47 :: (e.backend_queue ++ 32 :: (capsSegment caps (34 :: tail))))))))))))))))))))))), ?_⟩
  rw [hbuf]
  rfl

/-- Witness for C3 at the sample line. -/
theorem C3_pid_ip_delimiter_witness :
    ∃ rest, sampleLine = sampleEntry.process_name
      ++ 91 :: (sampleEntry.pid ++ 93 :: 58 :: 32 :: (sampleEntry.client_ip ++ 58 :: rest)) :=
  C3_pid_ip_delimiter sampleLine sampleEntry rfl

/-- C10: the parser does not require the buffer to be fully consumed.
For a grammar line whose request part reaches a closing quote,
appending any suffix after that quote leaves the parse result exactly
unchanged, and the parse succeeds. -/
theorem C10_suffix_irrelevant
    (pn pid ip port date fe be srv tq tw tc tr tt st br rqc rsc tm ca cf cb cs cr sq bq : List Nat) (caps : List (List Nat)) (req suffix : List Nat)
    (hpn : 91 ∉ pn) (hpid : 93 ∉ pid) (hip : 58 ∉ ip) (hport : 32 ∉ port)
    (hdate : 93 ∉ date) (hfe : 32 ∉ fe) (hbe : 47 ∉ be) (hsrv : 32 ∉ srv)
    (htq : 47 ∉ tq) (htw : 47 ∉ tw) (htc : 47 ∉ tc) (htr : 47 ∉ tr) (htt : 32 ∉ tt)
    (hst : 32 ∉ st) (hbr : 32 ∉ br) (hrqc : 32 ∉ rqc) (hrsc : 32 ∉ rsc) (htm : 32 ∉ tm)
    (hca : 47 ∉ ca) (hcf : 47 ∉ cf) (hcb : 47 ∉ cb) (hcs : 47 ∉ cs) (hcr : 32 ∉ cr)
    (hsq : 47 ∉ sq) (hbq : 32 ∉ bq)
    (hlen : caps.length ≤ 2) (hcap : ∀ c ∈ caps, 125 ∉ c) :
    LogEntry.from_bytes (mkLine pn pid ip port date fe be srv tq tw tc tr tt st br rqc rsc tm ca cf cb cs cr sq bq caps (req ++ 34 :: suffix))
      = LogEntry.from_bytes (mkLine pn pid ip port date fe be srv tq tw tc tr tt st br rqc rsc tm ca cf cb cs cr sq bq caps (req ++ [34])) ∧
    ∃ en, LogEntry.from_bytes (mkLine pn pid ip port date fe be srv tq tw tc tr tt st br rqc rsc tm ca cf cb cs cr sq bq caps (req ++ 34 :: suffix)) = .ok en := by
  have h1 := from_bytes_mkLine pn pid ip port date fe be srv tq tw tc tr tt st br rqc rsc tm ca cf cb cs cr sq bq caps (req ++ 34 :: suffix)
    hpn hpid hip hport hdate hfe hbe hsrv htq htw htc htr htt hst hbr hrqc hrsc htm hca hcf hcb hcs hcr hsq hbq hlen hcap
  have h2 := from_bytes_mkLine pn pid ip port date fe be srv tq tw tc tr tt st br rqc rsc tm ca cf cb cs cr sq bq caps (req ++ [34])
    hpn hpid hip hport hdate hfe hbe hsrv htq htw htc htr htt hst hbr hrqc hrsc htm hca hcf hcb hcs hcr hsq hbq hlen hcap
  constructor
  · rw [h1, h2, sor_fst_ext 34 req suffix []]
  · exact ⟨_, h1⟩

/-- Witness for C10: a concrete line with a newline byte after the
closing quote parses exactly like the line without it. -/
theorem C10_suffix_irrelevant_witness :
    LogEntry.from_bytes (mkLine [112] [49] [105] [53] [100] [102] [98] [115] [49] [50] [51] [52] [53] [50] [54] [99] [100] [45] [49] [49] [49] [49] [48] [48] [48] [] ([71] ++ 34 :: [10]))
      = LogEntry.from_bytes (mkLine [112] [49] [105] [53] [100] [102] [98] [115] [49] [50] [51] [52] [53] [50] [54] [99] [100] [45] [49] [49] [49] [49] [48] [48] [48] [] ([71] ++ [34])) ∧
    ∃ en, LogEntry.from_bytes (mkLine [112] [49] [105] [53] [100] [102] [98] [115] [49] [50] [51] [52] [53] [50] [54] [99] [100] [45] [49] [49] [49] [49] [48] [48] [48] [] ([71] ++ 34 :: [10])) = .ok en :=
  C10_suffix_irrelevant [112] [49] [105] [53] [100] [102] [98] [115] [49] [50] [51] [52] [53] [50] [54] [99] [100] [45] [49] [49] [49] [49] [48] [48] [48] [] [71] [10]
    (by decide) (by decide) (by decide) (by decide) (by decide) (by decide) (by decide) (by decide) (by decide) (by decide) (by decide) (by decide) (by decide) (by decide) (by decide) (by decide) (by decide) (by decide) (by decide) (by decide) (by decide) (by decide) (by decide) (by decide) (by decide) (by decide) (by decide)

-- ## Claim theorem for the full grammar

/-- C1: every line of the fixed grammar parses, and each named field
of the resulting entry is exactly the substring the grammar delimits;
in particular the literal sample line parses to the expected entry and
each named field selector extracts exactly the expected substring from
it. -/
theorem C1_grammar_fields :
    (∀ (pn pid ip port date fe be srv tq tw tc tr tt st br rqc rsc tm ca cf cb cs cr sq bq : List Nat) (caps : List (List Nat)) (req suffix : List Nat),
      91 ∉ pn → 93 ∉ pid → 58 ∉ ip → 32 ∉ port → 93 ∉ date → 32 ∉ fe → 47 ∉ be → 32 ∉ srv → 47 ∉ tq → 47 ∉ tw → 47 ∉ tc → 47 ∉ tr → 32 ∉ tt → 32 ∉ st → 32 ∉ br → 32 ∉ rqc → 32 ∉ rsc → 32 ∉ tm → 47 ∉ ca → 47 ∉ cf → 47 ∉ cb → 47 ∉ cs → 32 ∉ cr → 47 ∉ sq → 32 ∉ bq →
      caps.length ≤ 2 → (∀ c ∈ caps, 125 ∉ c) → 34 ∉ req →
      LogEntry.from_bytes (mkLine pn pid ip port date fe be srv tq tw tc tr tt st br rqc rsc tm ca cf cb cs cr sq bq caps (req ++ 34 :: suffix))
        = .ok { process_name := pn,
                pid := pid,
                client_ip := ip,
                client_port := port,
                accept_date := date,
                frontend_name := fe,
                backend_name := be,
                server_name := srv,
                request_time := tq,
                queue_time := tw,
                connect_time := tc,
                response_time := tr,
                total_time := tt,
                status_code := st,
                bytes_read := br,
                captured_request_cookie := rqc,
                captured_response_cookie := rsc,
                termination_state := tm,
                active_connections := ca,
                frontend_connections := cf,
                backend_connections := cb,
                server_connections := cs,
                retried_connections := cr,
                server_queue := sq,
                backend_queue := bq,
                captures0 := caps.getD 0 [],
                captures1 := caps.getD 1 [],
                http_request := req }) ∧
    LogEntry.from_bytes sampleLine = .ok sampleEntry ∧
    HCut.Field.ProcessName.extract_content_from sampleEntry = some [104, 97, 112, 114, 111, 120, 121] ∧
    HCut.Field.ProcessId.extract_content_from sampleEntry = some [49, 52, 51, 56, 57] ∧
    HCut.Field.ClientIp.extract_content_from sampleEntry = some [49, 48, 46, 48, 46, 49, 46, 50] ∧
    HCut.Field.ClientPort.extract_content_from sampleEntry = some [51, 51, 51, 49, 55] ∧
    HCut.Field.AcceptDate.extract_content_from sampleEntry = some [48, 54, 47, 70, 101, 98, 47, 50, 48, 48, 57, 58, 49, 50, 58, 49, 52, 58, 49, 52, 46, 54, 53, 53] ∧
    HCut.Field.FrontendName.extract_content_from sampleEntry = some [104, 116, 116, 112, 45, 105, 110] ∧
    HCut.Field.BackendName.extract_content_from sampleEntry = some [115, 116, 97, 116, 105, 99] ∧
    HCut.Field.ServerName.extract_content_from sampleEntry = some [115, 114, 118, 49] ∧
    HCut.Field.RequestTime.extract_content_from sampleEntry = some [49, 48] ∧
    HCut.Field.QueueTime.extract_content_from sampleEntry = some [48] ∧
    HCut.Field.ConnectTime.extract_content_from sampleEntry = some [51, 48] ∧
    HCut.Field.ResponseTime.extract_content_from sampleEntry = some [54, 57] ∧
    HCut.Field.TotalTime.extract_content_from sampleEntry = some [49, 48, 57] ∧
    HCut.Field.StatusCode.extract_content_from sampleEntry = some [50, 48, 48] ∧
    HCut.Field.BytesRead.extract_content_from sampleEntry = some [50, 55, 53, 48] ∧
    HCut.Field.CapturedRequestCookie.extract_content_from sampleEntry = some [99, 111, 111, 107, 105, 101, 95, 105, 110] ∧
    HCut.Field.CapturedResponseCookie.extract_content_from sampleEntry = some [99, 111, 111, 107, 105, 101, 95, 111, 117, 116] ∧
    HCut.Field.TerminationState.extract_content_from sampleEntry = some [45, 45, 45, 45] ∧
    HCut.Field.ActiveConnections.extract_content_from sampleEntry = some [49] ∧
    HCut.Field.FrontendConnections.extract_content_from sampleEntry = some [49] ∧
    HCut.Field.BackendConnections.extract_content_from sampleEntry = some [49] ∧
    HCut.Field.ServerConnections.extract_content_from sampleEntry = some [49] ∧
    HCut.Field.RetriedConnections.extract_content_from sampleEntry = some [48] ∧
    HCut.Field.ServerQueue.extract_content_from sampleEntry = some [48] ∧
    HCut.Field.BackendQueue.extract_content_from sampleEntry = some [48] ∧
    HCut.Field.HttpRequest.extract_content_from sampleEntry = some [71, 69, 84, 32, 47, 105, 110, 100, 101, 120, 46, 104, 116, 109, 108, 32, 72, 84, 84, 80, 47, 49, 46, 49] ∧
    (HCut.Field.CapturedHeader 0 0).extract_content_from sampleEntry = some [49, 119, 116, 46, 101, 117] ∧
    (HCut.Field.CapturedHeader 1 0).extract_content_from sampleEntry = some [] := by
  refine ⟨?_, rfl, rfl, rfl, rfl, rfl, rfl, rfl, rfl, rfl, rfl, rfl, rfl, rfl, rfl, rfl, rfl, rfl, rfl, rfl, rfl, rfl, rfl, rfl, rfl, rfl, rfl, rfl, rfl, rfl⟩
  intro pn pid ip port date fe be srv tq tw tc tr tt st br rqc rsc tm ca cf cb cs cr sq bq caps req suffix hpn hpid hip hport hdate hfe hbe hsrv htq htw htc htr htt hst hbr hrqc hrsc htm hca hcf hcb hcs hcr hsq hbq hlen hcap hreq
  have h1 := from_bytes_mkLine pn pid ip port date fe be srv tq tw tc tr tt st br rqc rsc tm ca cf cb cs cr sq bq caps (req ++ 34 :: suffix) hpn hpid hip hport hdate hfe hbe hsrv htq htw htc htr htt hst hbr hrqc hrsc htm hca hcf hcb hcs hcr hsq hbq hlen hcap
  rw [sor_append suffix hreq] at h1
  exact h1

/-- Witness for C1: a concrete one byte per field line with no capture
block and a trailing newline after the closing quote. -/
theorem C1_grammar_fields_witness :
    LogEntry.from_bytes (mkLine [112] [49] [105] [53] [100] [102] [98] [115] [49] [50] [51] [52] [53] [50] [54] [99] [100] [45] [49] [49] [49] [49] [48] [48] [48] [] ([71] ++ 34 :: [10]))
      = .ok { process_name := [112],
              pid := [49],
              client_ip := [105],
              client_port := [53],
              accept_date := [100],
              frontend_name := [102],
              backend_name := [98],
              server_name := [115],
              request_time := [49],
              queue_time := [50],
              connect_time := [51],
              response_time := [52],
              total_time := [53],
              status_code := [50],
              bytes_read := [54],
              captured_request_cookie := [99],
              captured_response_cookie := [100],
              termination_state := [45],
              active_connections := [49],
              frontend_connections := [49],
              backend_connections := [49],
              server_connections := [49],
              retried_connections := [48],
              server_queue := [48],
              backend_queue := [48],
              captures0 := [],
              captures1 := [],
              http_request := [71] } :=
  C1_grammar_fields.1 [112] [49] [105] [53] [100] [102] [98] [115] [49] [50] [51] [52] [53] [50] [54] [99] [100] [45] [49] [49] [49] [49] [48] [48] [48] [] [71] [10]
    (by decide) (by decide) (by decide) (by decide) (by decide) (by decide) (by decide) (by decide) (by decide) (by decide) (by decide) (by decide) (by decide) (by decide) (by decide) (by decide) (by decide) (by decide) (by decide) (by decide) (by decide) (by decide) (by decide) (by decide) (by decide) (by decide) (by decide) (by decide)

-- ## Field name decode lemmas

/-- A string that starts with the captured header prefix differs from
every fixed field name that does not start with it. -/
theorem ne_of_chPat_prefix {rest lit : List Char} (hne : startsWithL chPat lit = false) :
    chPat ++ rest ≠ lit := by
  intro h
  have h1 : startsWithL chPat (chPat ++ rest) = true := startsWithL_append chPat rest
  rw [h, hne] at h1
  exact Bool.noConfusion h1

theorem trimGo_not_start {n : Nat} {s : List Char} (h : startsWithL chPat s = false) :
    trimGo n s = s := by
  cases n <;> simp [trimGo, h]

theorem trimStart_once {rest : List Char} (h : startsWithL chPat rest = false) :
    trimStartMatchesCH (chPat ++ rest) = rest := by
  unfold trimStartMatchesCH
  have hc : chPat.length = 16 := rfl
  rw [List.length_append, hc, show (16 + rest.length) = (15 + rest.length) + 1 from by omega]
  rw [trimGo, if_pos (startsWithL_append chPat rest), List.drop_left]
  exact trimGo_not_start h

theorem trimEnd_concat_rb (xs : List Char) :
    trimEndMatchesRB (xs ++ [']']) = trimEndMatchesRB xs := by
  unfold trimEndMatchesRB
  simp [List.reverse_append, List.dropWhile_cons]

theorem trimEnd_last_not_rb {xs : List Char} {c : Char} (h : (c == ']') = false) :
    trimEndMatchesRB (xs ++ [c]) = xs ++ [c] := by
  unfold trimEndMatchesRB
  simp [List.reverse_append, List.dropWhile_cons, h]

theorem splitOnSepRB_no_rb {b : List Char} (h : ∀ c ∈ b, ¬ (c = ']')) :
    splitOnSepRB b = [b] := by
  induction b with
  | nil => rfl
  | cons x xs ih =>
    cases xs with
    | nil => rfl
    | cons y ys =>
      have hx : ¬ (x = ']') := h x (by simp)
      have hcond : ¬ (x = ']' ∧ y = '[') := fun hh => hx hh.1
      have hs := ih (fun c hc => h c (List.mem_cons_of_mem x hc))
      simp only [splitOnSepRB, if_neg hcond, hs]

theorem splitOnSepRB_append {a b : List Char} (h : ∀ c ∈ a, ¬ (c = ']')) :
    splitOnSepRB (a ++ ']' :: '[' :: b) = a :: splitOnSepRB b := by
  induction a with
  | nil => simp [splitOnSepRB]
  | cons x xs ih =>
    have hx : ¬ (x = ']') := h x (by simp)
    have ihx := ih (fun c hc => h c (List.mem_cons_of_mem x hc))
    cases xs with
    | nil =>
      have hcond : ¬ (x = ']' ∧ ']' = '[') := fun hh => hx hh.1
      have hin : splitOnSepRB (']' :: '[' :: b) = [] :: splitOnSepRB b := by
        simp [splitOnSepRB]
      rw [List.cons_append, List.nil_append, splitOnSepRB.eq_def]
      simp only []
      rw [if_neg hcond, hin]
    | cons y ys =>
      have hcond : ¬ (x = ']' ∧ y = '[') := fun hh => hx hh.1
      simp only [List.cons_append] at ihx ⊢
      simp only [splitOnSepRB, if_neg hcond, ihx]

theorem parseUsize_digits {ds : List Char} (hne : ds ≠ [])
    (hd : ∀ c ∈ ds, c.isDigit = true) (hb : natOfDigits ds < 2 ^ 64) :
    parseUsize ds = some (natOfDigits ds) := by
  obtain ⟨c, cs, rfl⟩ := List.exists_cons_of_ne_nil hne
  have hc : c.isDigit = true := hd c (by simp)
  have hplus : ¬ ((c :: cs).head? = some '+') := by
    simp only [List.head?, Option.some.injEq]
    intro hh
    rw [hh] at hc
    exact absurd hc (by decide)
  unfold parseUsize
  rw [if_neg hplus]
  unfold parseUsizeDigits
  rw [if_neg (by simp), if_pos (List.all_eq_true.mpr hd), if_pos hb]

/-- Decode accepts every name of the exact indexed shape: the literal
prefix, a nonempty run of digits with value at most one, the bracket
pair, a nonempty run of digits whose value fits in 64 bits, and a
final close bracket. -/
theorem shape_decode (d1 d2 : List Char) (h1ne : d1 ≠ []) (h2ne : d2 ≠ [])
    (h1d : ∀ c ∈ d1, c.isDigit = true) (h2d : ∀ c ∈ d2, c.isDigit = true)
    (hle : natOfDigits d1 ≤ 1) (hlt : natOfDigits d2 < 2 ^ 64) :
    HCut.Field.decode (chPat ++ (d1 ++ ']' :: '[' :: (d2 ++ [']'])))
      = .ok (.CapturedHeader (natOfDigits d1) (natOfDigits d2)) := by
  have hne1 : chPat ++ (d1 ++ ']' :: '[' :: (d2 ++ [']'])) ≠ "process_name".toList := ne_of_chPat_prefix (by rfl)
  have hne2 : chPat ++ (d1 ++ ']' :: '[' :: (d2 ++ [']'])) ≠ "pid".toList := ne_of_chPat_prefix (by rfl)
  have hne3 : chPat ++ (d1 ++ ']' :: '[' :: (d2 ++ [']'])) ≠ "client_ip".toList := ne_of_chPat_prefix (by rfl)
  have hne4 : chPat ++ (d1 ++ ']' :: '[' :: (d2 ++ [']'])) ≠ "client_port".toList := ne_of_chPat_prefix (by rfl)
  have hne5 : chPat ++ (d1 ++ ']' :: '[' :: (d2 ++ [']'])) ≠ "accept_date".toList := ne_of_chPat_prefix (by rfl)
  have hne6 : chPat ++ (d1 ++ ']' :: '[' :: (d2 ++ [']'])) ≠ "frontend_name".toList := ne_of_chPat_prefix (by rfl)
  have hne7 : chPat ++ (d1 ++ ']' :: '[' :: (d2 ++ [']'])) ≠ "backend_name".toList := ne_of_chPat_prefix (by rfl)
  have hne8 : chPat ++ (d1 ++ ']' :: '[' :: (d2 ++ [']'])) ≠ "server_name".toList := ne_of_chPat_prefix (by rfl)
  have hne9 : chPat ++ (d1 ++ ']' :: '[' :: (d2 ++ [']'])) ≠ "Tq".toList := ne_of_chPat_prefix (by rfl)
  have hne10 : chPat ++ (d1 ++ ']' :: '[' :: (d2 ++ [']'])) ≠ "Tw".toList := ne_of_chPat_prefix (by rfl)
  have hne11 : chPat ++ (d1 ++ ']' :: '[' :: (d2 ++ [']'])) ≠ "Tc".toList := ne_of_chPat_prefix (by rfl)
  have hne12 : chPat ++ (d1 ++ ']' :: '[' :: (d2 ++ [']'])) ≠ "Tr".toList := ne_of_chPat_prefix (by rfl)
  have hne13 : chPat ++ (d1 ++ ']' :: '[' :: (d2 ++ [']'])) ≠ "Tt".toList := ne_of_chPat_prefix (by rfl)
  have hne14 : chPat ++ (d1 ++ ']' :: '[' :: (d2 ++ [']'])) ≠ "status_code".toList := ne_of_chPat_prefix (by rfl)
  have hne15 : chPat ++ (d1 ++ ']' :: '[' :: (d2 ++ [']'])) ≠ "bytes_read".toList := ne_of_chPat_prefix (by rfl)
  have hne16 : chPat ++ (d1 ++ ']' :: '[' :: (d2 ++ [']'])) ≠ "captured_request_cookie".toList := ne_of_chPat_prefix (by rfl)
  have hne17 : chPat ++ (d1 ++ ']' :: '[' :: (d2 ++ [']'])) ≠ "captured_response_cookie".toList := ne_of_chPat_prefix (by rfl)
  have hne18 : chPat ++ (d1 ++ ']' :: '[' :: (d2 ++ [']'])) ≠ "termination_state".toList := ne_of_chPat_prefix (by rfl)
  have hne19 : chPat ++ (d1 ++ ']' :: '[' :: (d2 ++ [']'])) ≠ "actconn".toList := ne_of_chPat_prefix (by rfl)
  have hne20 : chPat ++ (d1 ++ ']' :: '[' :: (d2 ++ [']'])) ≠ "feconn".toList := ne_of_chPat_prefix (by rfl)
  have hne21 : chPat ++ (d1 ++ ']' :: '[' :: (d2 ++ [']'])) ≠ "beconn".toList := ne_of_chPat_prefix (by rfl)
  have hne22 : chPat ++ (d1 ++ ']' :: '[' :: (d2 ++ [']'])) ≠ "srv_conn".toList := ne_of_chPat_prefix (by rfl)
  have hne23 : chPat ++ (d1 ++ ']' :: '[' :: (d2 ++ [']'])) ≠ "retries".toList := ne_of_chPat_prefix (by rfl)
  have hne24 : chPat ++ (d1 ++ ']' :: '[' :: (d2 ++ [']'])) ≠ "srv_queue".toList := ne_of_chPat_prefix (by rfl)
  have hne25 : chPat ++ (d1 ++ ']' :: '[' :: (d2 ++ [']'])) ≠ "backend_queue".toList := ne_of_chPat_prefix (by rfl)
  have hne26 : chPat ++ (d1 ++ ']' :: '[' :: (d2 ++ [']'])) ≠ "http_request".toList := ne_of_chPat_prefix (by rfl)
  have hne27 : chPat ++ (d1 ++ ']' :: '[' :: (d2 ++ [']'])) ≠ "http_method".toList := ne_of_chPat_prefix (by rfl)
  have hne28 : chPat ++ (d1 ++ ']' :: '[' :: (d2 ++ [']'])) ≠ "http_uri".toList := ne_of_chPat_prefix (by rfl)
  have hne29 : chPat ++ (d1 ++ ']' :: '[' :: (d2 ++ [']'])) ≠ "http_version".toList := ne_of_chPat_prefix (by rfl)
  have hlast : (chPat ++ (d1 ++ ']' :: '[' :: (d2 ++ [']']))).getLast? = some ']' := by
    have ha : chPat ++ (d1 ++ ']' :: '[' :: (d2 ++ [']']))
        = (chPat ++ d1 ++ ']' :: '[' :: d2) ++ [']'] := by
      simp [List.append_assoc]
    rw [ha, List.getLast?_concat]
  unfold HCut.Field.decode
  rw [if_neg hne1, if_neg hne2, if_neg hne3, if_neg hne4, if_neg hne5, if_neg hne6, if_neg hne7, if_neg hne8, if_neg hne9, if_neg hne10, if_neg hne11, if_neg hne12, if_neg hne13, if_neg hne14, if_neg hne15, if_neg hne16, if_neg hne17, if_neg hne18, if_neg hne19, if_neg hne20, if_neg hne21, if_neg hne22, if_neg hne23, if_neg hne24, if_neg hne25, if_neg hne26, if_neg hne27, if_neg hne28, if_neg hne29]
  rw [if_pos (startsWithL_append chPat (d1 ++ ']' :: '[' :: (d2 ++ [']'])))]
  rw [if_neg (by simp [hlast])]
  obtain ⟨c1h, d1t, rfl⟩ := List.exists_cons_of_ne_nil h1ne
  have hc1 : c1h.isDigit = true := h1d c1h (by simp)
  have hstart : startsWithL chPat ((c1h :: d1t) ++ ']' :: '[' :: (d2 ++ [']'])) = false := by
    have hcne : ¬ ('c' = c1h) := fun hh => by
      rw [← hh] at hc1
      exact absurd hc1 (by decide)
    rw [List.cons_append, show chPat = 'c' :: "aptured_header[".toList from rfl]
    simp [startsWithL, hcne]
  rw [trimStart_once hstart]
  have hassoc : (c1h :: d1t) ++ ']' :: '[' :: (d2 ++ [']'])
      = ((c1h :: d1t) ++ ']' :: '[' :: d2) ++ [']'] := by simp
  rw [hassoc, trimEnd_concat_rb]
  rcases List.eq_nil_or_concat d2 with rfl | ⟨d2i, c2l, rfl⟩
  · exact absurd rfl h2ne
  simp only [List.concat_eq_append] at h2d hlt ⊢
  have hc2 : c2l.isDigit = true := h2d c2l (by simp)
  have hc2ne : (c2l == ']') = false := by
    have hcc : ¬ (c2l = ']') := fun hh => by
      rw [hh] at hc2
      exact absurd hc2 (by decide)
    exact beq_eq_false_iff_ne.mpr hcc
  have hassoc2 : (c1h :: d1t) ++ ']' :: '[' :: (d2i ++ [c2l])
      = ((c1h :: d1t) ++ ']' :: '[' :: d2i) ++ [c2l] := by simp
  rw [hassoc2, trimEnd_last_not_rb hc2ne, ← hassoc2]
  have hd1nr : ∀ c ∈ (c1h :: d1t), ¬ (c = ']') := by
    intro c hc hh
    have := h1d c hc
    rw [hh] at this
    exact absurd this (by decide)
  have hd2nr : ∀ c ∈ (d2i ++ [c2l]), ¬ (c = ']') := by
    intro c hc hh
    have := h2d c hc
    rw [hh] at this
    exact absurd this (by decide)
  rw [splitOnSepRB_append hd1nr, splitOnSepRB_no_rb hd2nr]
  have hb1 : natOfDigits (c1h :: d1t) < 2 ^ 64 := lt_of_le_of_lt hle (by norm_num)
  have hmap : [c1h :: d1t, d2i ++ [c2l]].mapM parseUsize
      = some [natOfDigits (c1h :: d1t), natOfDigits (d2i ++ [c2l])] := by
    simp [List.mapM, List.mapM.loop,
      parseUsize_digits (by simp) h1d hb1,
      parseUsize_digits (by simp) h2d hlt]
  rw [hmap]
  simp only []
  rw [if_neg (by omega)]

/-- C2 counterexample: the input captured_header[0][1]] deviates from
the exact indexed shape, with an extra trailing close bracket, yet
decode accepts it, because trim_end_matches strips every trailing
close bracket; so decode success is not limited to exact shape
inputs. -/
theorem C2_counterexample :
    capturedHeaderShape "captured_header[0][1]]".toList = false ∧
    HCut.Field.decode "captured_header[0][1]]".toList = .ok (.CapturedHeader 0 1) :=
  ⟨rfl, rfl⟩

/-- C2 (amended): decode accepts every input of the exact indexed
shape whose second index fits in 64 bits, and rejects each of the
three listed deviations with its descriptive error: a first index
above one, a non numeric index, and a missing second index; but
acceptance is not limited to exact shape inputs. -/
theorem C2_decode_indexed :
    (∀ d1 d2 : List Char, d1 ≠ [] → d2 ≠ [] →
      (∀ c ∈ d1, c.isDigit = true) → (∀ c ∈ d2, c.isDigit = true) →
      natOfDigits d1 ≤ 1 → natOfDigits d2 < 2 ^ 64 →
      HCut.Field.decode (chPat ++ (d1 ++ ']' :: '[' :: (d2 ++ [']'])))
        = .ok (.CapturedHeader (natOfDigits d1) (natOfDigits d2))) ∧
    HCut.Field.decode "captured_header[2][0]".toList
      = .error "captured_header: the first index must be 0 or 1" ∧
    HCut.Field.decode "captured_header[abc][0]".toList
      = .error "captured_header: could not parse index" ∧
    HCut.Field.decode "captured_header[0]".toList
      = .error "captured_header: not enough indices" :=
  ⟨shape_decode, rfl, rfl, rfl⟩

/-- Witness for C2: the indexed name with first index one and second
index twenty three decodes to the indexed field. -/
theorem C2_decode_indexed_witness :
    HCut.Field.decode (chPat ++ ([Char.ofNat 49] ++ ']' :: '[' :: ([Char.ofNat 50, Char.ofNat 51] ++ [']'])))
      = .ok (.CapturedHeader (natOfDigits [Char.ofNat 49]) (natOfDigits [Char.ofNat 50, Char.ofNat 51])) :=
  C2_decode_indexed.1 [Char.ofNat 49] [Char.ofNat 50, Char.ofNat 51]
    (by decide) (by decide) (by decide) (by decide) (by decide) (by decide)
